import Mathlib

/-!
# YoloMouse overlay: event protocol and cursor selection

A shallow embedding of `source/YoloMouse/Loader/Overlay/Overlay.cpp`.

* The overlay object is a record (`Overlay`); every member function is a
  function from the state before the call to the result and the state after.
* Pointers to `IOverlayCursor` objects are `CursorPtr`; a nullable pointer is
  an `Option CursorPtr`.  The cursor objects themselves live in
  `Overlay._basic_cursor` (the member) and `Overlay.heap` (objects owned by
  the callers of `InstallCursor`).
* An index into `_cursors` that is out of range has no defined behaviour in
  the source; functions that index return `none` there.
* Constants and collaborators that are declared outside `Overlay.cpp` are
  parameters (`Config`, `Env`).
* Cursor ids and variations are natural numbers: inside the table they are
  far below the range of their integer types, so `+ 1` never wraps.  The
  message timeout is computed modulo `2 ^ 32` (`ULong`).
* `Float` values (aspect ratio, popup position) are uninterpreted: the overlay
  computes nothing from them that the statements below depend on.
* An `ASSERT` is not part of the function it stands in (release build); it is
  a hypothesis of the statements, and `lifecycleAsserts` and `opAllowed`
  collect the assertions for sequences of calls.
* What the platform answers during a call (whether a resource is acquired,
  the thread handle, the pointer position) is an argument of the call.
* The two threads meet in `inFrameDrainWith` and `preFrameDrainWith`: a drain
  is its statements in order (the test of the mask, one statement per bit,
  the clear), and a call of the other thread runs as a whole between two of
  them.
-/

namespace Yolomouse

/-! ## Constants of the headers -/

/-- Constants that `Overlay.cpp` uses and other files declare: the two table
dimensions, the width of the `Bits` mask type and the position of each event
bit in its mask. -/
structure Config where
  CURSOR_ID_COUNT : Nat
  CURSOR_VARIATION_COUNT : Nat
  maskWidth : Nat
  hideCursorBit : Nat
  setCursorBit : Nat
  setMessageBit : Nat
  resizeBit : Nat
deriving DecidableEq, Repr

/-- Mask constant `IN_FRAME_EVENT_HIDE_CURSOR`. -/
def Config.IN_FRAME_EVENT_HIDE_CURSOR (cfg : Config) : Nat := 2 ^ cfg.hideCursorBit

/-- Mask constant `IN_FRAME_EVENT_SET_CURSOR`. -/
def Config.IN_FRAME_EVENT_SET_CURSOR (cfg : Config) : Nat := 2 ^ cfg.setCursorBit

/-- Mask constant `IN_FRAME_EVENT_SET_MESSAGE`. -/
def Config.IN_FRAME_EVENT_SET_MESSAGE (cfg : Config) : Nat := 2 ^ cfg.setMessageBit

/-- Mask constant `PRE_FRAME_EVENT_RESIZE`. -/
def Config.PRE_FRAME_EVENT_RESIZE (cfg : Config) : Nat := 2 ^ cfg.resizeBit

/-- The event bits fit the mask type and the three in-frame bits are distinct. -/
def Config.WellFormed (cfg : Config) : Prop :=
  cfg.hideCursorBit < cfg.maskWidth ∧ cfg.setCursorBit < cfg.maskWidth ∧
  cfg.setMessageBit < cfg.maskWidth ∧ cfg.resizeBit < cfg.maskWidth ∧
  cfg.hideCursorBit ≠ cfg.setCursorBit ∧ cfg.hideCursorBit ≠ cfg.setMessageBit ∧
  cfg.setCursorBit ≠ cfg.setMessageBit

instance (cfg : Config) : Decidable cfg.WellFormed := by
  unfold Config.WellFormed; infer_instance

/-- The operator `~` on a mask of `w` bits (for operands below `2 ^ w`). -/
def bitNot (w x : Nat) : Nat := x ^^^ (2 ^ w - 1)

/-- The test `mask & bit` used as a condition: true when the result is non-zero. -/
def maskHas (mask bit : Nat) : Bool := (mask &&& bit) != 0

/-- `MESSAGE_TIMEOUT_PER_CHARACTER`, in milliseconds. -/
def MESSAGE_TIMEOUT_PER_CHARACTER : Nat := 40

/-- Arithmetic of `ULong` is modulo `2 ^ 32`. -/
def ULONG_MOD : Nat := 2 ^ 32

/-! ## Plain data -/

abbrev CursorId := Nat
abbrev CursorVariation := Nat
abbrev CursorSize := Nat
abbrev HWND := Nat

/-- A `Float` aspect ratio, kept as an uninterpreted value: the overlay only
passes it on. -/
abbrev AspectRatio := Nat

/-- A `Vector2f` position in normalized device coordinates, kept as an
uninterpreted value. -/
abbrev NdsPosition := Nat

/-- `Vector2l`: a pair of `Long`. -/
structure Vector2l where
  x : Int
  y : Int
deriving DecidableEq, Repr

/-- Conversion of a `ULong` to `Long` (two's complement, 32 bits). -/
def ULongToLong (n : Nat) : Int :=
  if n % 2 ^ 32 < 2 ^ 31 then ((n % 2 ^ 32 : Nat) : Int) else ((n % 2 ^ 32 : Nat) : Int) - 2 ^ 32

/-- The Win32 `RECT`. -/
structure RECT where
  left : Int
  top : Int
  right : Int
  bottom : Int
deriving DecidableEq, Repr

/-- The cursor type of a request; every enumerator other than the two that
`_LoadCursor` handles is `other`. -/
inductive CursorType where
  | CURSOR_TYPE_BASIC
  | CURSOR_TYPE_OVERLAY
  | other (code : Nat)
deriving DecidableEq, Repr

/-- `CursorInfo`: the cursor request. -/
structure CursorInfo where
  type : CursorType
  id : CursorId
  variation : CursorVariation
  size : CursorSize
deriving DecidableEq, Repr

/-- A non-null `IOverlayCursor*`: the address of the member `_basic_cursor`
or of an object owned by a caller. -/
inductive CursorPtr where
  | basic
  | ext (addr : Nat)
deriving DecidableEq, Repr

/-! ## Collaborators -/

/-- Modelled from the spec: the state of a drawable cursor (`IOverlayCursor`,
whose implementations are in other files): whether it is initialized, the
aspect ratio it holds and the (id, variation, size) it last adopted. -/
structure CursorObj where
  initialized : Bool
  aspect_ratio : AspectRatio
  variant : Option (CursorId × CursorVariation × CursorSize)
deriving DecidableEq, Repr

/-- Modelled from the spec: the text popup (`TextPopup`, in another file):
its aspect ratio, whether a message is showing, and the text, position and
timeout last passed to `SetText`. -/
structure TextPopup where
  aspect_ratio : AspectRatio
  active : Bool
  text : List Char
  position : NdsPosition
  timeout : Nat
deriving DecidableEq, Repr

/-- Modelled from the spec: the overlay window (`Window`, in another file),
known here by its size. -/
structure Window where
  size : Vector2l
deriving DecidableEq, Repr

/-- Modelled from the spec: the graphics surface (`RenderContext`, in another
file): the size last passed to `Resize`, how many times `Resize` was called,
and the latency mode. -/
structure RenderContext where
  size : Vector2l
  resize_count : Nat
  reduce_latency : Bool
deriving DecidableEq, Repr

/-- Modelled from the spec: the pointer service (`Mouse`, in another file). -/
structure Mouse where
  improved_precision : Bool
deriving DecidableEq, Repr

/-- Behaviour of the collaborators that the overlay cannot see into: which
(id, variation, size) a cursor object adopts in its current state, what the
window does with a new size and which aspect ratio it reports, which window
handles have a screen rectangle, and the floating-point computation of the
popup position. -/
structure Env where
  accepts : CursorPtr → CursorObj → CursorId → CursorVariation → CursorSize → Bool
  Window_SetSize : Window → Vector2l → Window
  Window_GetAspectRatio : Window → AspectRatio
  GetWindowRect : HWND → Option RECT
  ndsCenter : RECT → Vector2l → NdsPosition

/-- Modelled from the spec: `IOverlayCursor::SetCursor(id, variation, size)`.
The cursor adopts the variant and reports success, or refuses and stays as it
was. -/
def CursorObj.SetCursor (env : Env) (p : CursorPtr) (c : CursorObj)
    (id : CursorId) (variation : CursorVariation) (size : CursorSize) : Bool × CursorObj :=
  if env.accepts p c id variation size then
    (true, { c with variant := some (id, variation, size) })
  else
    (false, c)

/-- Modelled from the spec: `IOverlayCursor::SetAspectRatio`. -/
def CursorObj.SetAspectRatio (c : CursorObj) (r : AspectRatio) : CursorObj :=
  { c with aspect_ratio := r }

/-- Modelled from the spec: `IOverlayCursor::Shutdown`. -/
def CursorObj.Shutdown (c : CursorObj) : CursorObj :=
  { c with initialized := false, variant := none }

/-- Modelled from the spec: `TextPopup::SetAspectRatio`. -/
def TextPopup.SetAspectRatio (t : TextPopup) (r : AspectRatio) : TextPopup :=
  { t with aspect_ratio := r }

/-- Modelled from the spec: `TextPopup::SetText(text, position, timeout)`:
the popup shows the text at the position for the timeout. -/
def TextPopup.SetText (t : TextPopup) (text : List Char) (position : NdsPosition)
    (timeout : Nat) : TextPopup :=
  { t with active := true, text := text, position := position, timeout := timeout }

/-- Modelled from the spec: `RenderContext::Resize(size)`. -/
def RenderContext.Resize (rc : RenderContext) (size : Vector2l) : RenderContext :=
  { rc with size := size, resize_count := rc.resize_count + 1 }

/-! ## The overlay -/

/-- The fields of `Overlay`, and the cursor objects its pointers refer to. -/
structure Overlay where
  _active_cursor : Option CursorPtr
  _initialized : Bool
  _started : Bool
  _active : Bool
  _hover_hwnd : HWND
  _pre_frame_events : Nat
  _in_frame_events : Nat
  _resize_event : Vector2l
  _cursor_event : Option CursorPtr
  _message_event : List Char
  _cursors : List (Option CursorPtr)
  _window : Window
  _render_context : RenderContext
  _mouse : Mouse
  _basic_cursor : CursorObj
  _text_popup : TextPopup
  _thread : Option Nat
  heap : Nat → CursorObj

/-- The object a cursor pointer refers to. -/
def Overlay.deref (o : Overlay) : CursorPtr → CursorObj
  | .basic => o._basic_cursor
  | .ext a => o.heap a

/-- Write through a cursor pointer. -/
def Overlay.store (o : Overlay) (p : CursorPtr) (c : CursorObj) : Overlay :=
  match p with
  | .basic => { o with _basic_cursor := c }
  | .ext a => { o with heap := fun b => if b = a then c else o.heap b }

/-- `Overlay::Overlay()`.  The constructor leaves `_cursor_event`
uninitialized (`junk`); the collaborators start in the state given. -/
def Overlay.new (cfg : Config) (junk : Option CursorPtr) (basic : CursorObj)
    (heap : Nat → CursorObj) : Overlay :=
  { _active_cursor := none
    _initialized := false
    _started := false
    _active := false
    _hover_hwnd := 0
    _pre_frame_events := 0
    _in_frame_events := 0
    _resize_event := ⟨0, 0⟩
    _cursor_event := junk
    _message_event := []
    _cursors := List.replicate cfg.CURSOR_ID_COUNT none
    _window := ⟨⟨0, 0⟩⟩
    _render_context := ⟨⟨0, 0⟩, 0, false⟩
    _mouse := ⟨false⟩
    _basic_cursor := basic
    _text_popup := ⟨0, false, [], 0, 0⟩
    _thread := none
    heap := heap }

/-- `Overlay::_LoadCursor`.  The outer `none` is the out-of-range index; the
inner `Option` is the returned pointer. -/
def Overlay._LoadCursor (env : Env) (o : Overlay) (info : CursorInfo) :
    Option (Option CursorPtr × Overlay) :=
  match info.type with
  | .CURSOR_TYPE_BASIC =>
    let r := CursorObj.SetCursor env .basic o._basic_cursor info.id info.variation info.size
    if r.1 then some (some .basic, { o with _basic_cursor := r.2 })
    else some (none, { o with _basic_cursor := r.2 })
  | .CURSOR_TYPE_OVERLAY =>
    match o._cursors[info.id]? with
    | none => none
    | some none => some (none, o)
    | some (some cursor) =>
      let r := CursorObj.SetCursor env cursor (o.deref cursor) info.id info.variation info.size
      if r.1 then some (some cursor, o.store cursor r.2)
      else some (none, o.store cursor r.2)
  | .other _ => some (none, o)

/-- What `_LoadCursorIterated` hands back: the returned pointer, the request
as the loops left it, the overlay, and the (id, variation) of every call of
`_LoadCursor` it made, in order. -/
structure LoadResult where
  cursor : Option CursorPtr
  info : CursorInfo
  overlay : Overlay
  probes : List (CursorId × CursorVariation)

/-- The inner loop of `_LoadCursorIterated`, with `n` iterations left
(`n = CURSOR_VARIATION_COUNT - variationi`). -/
def Overlay.variationLoop (cfg : Config) (env : Env) :
    Nat → Overlay → CursorInfo → Option LoadResult
  | 0, o, info => some ⟨none, info, o, []⟩
  | n + 1, o, info =>
    match o._LoadCursor env info with
    | none => none
    | some (some cursor, o1) => some ⟨some cursor, info, o1, [(info.id, info.variation)]⟩
    | some (none, o1) =>
      match Overlay.variationLoop cfg env n o1
          { info with variation := (info.variation + 1) % cfg.CURSOR_VARIATION_COUNT } with
      | none => none
      | some r => some { r with probes := (info.id, info.variation) :: r.probes }

/-- The outer loop of `_LoadCursorIterated`, with `n` iterations left
(`n = CURSOR_ID_COUNT - idi`). -/
def Overlay.idLoop (cfg : Config) (env : Env) :
    Nat → Overlay → CursorInfo → Option LoadResult
  | 0, o, info => some ⟨none, info, o, []⟩
  | n + 1, o, info =>
    match Overlay.variationLoop cfg env cfg.CURSOR_VARIATION_COUNT o info with
    | none => none
    | some r =>
      match r.cursor with
      | some cursor => some ⟨some cursor, r.info, r.overlay, r.probes⟩
      | none =>
        match Overlay.idLoop cfg env n r.overlay
            { r.info with variation := 0, id := (r.info.id + 1) % cfg.CURSOR_ID_COUNT } with
        | none => none
        | some r2 => some { r2 with probes := r.probes ++ r2.probes }

/-- `Overlay::_LoadCursorIterated`. -/
def Overlay._LoadCursorIterated (cfg : Config) (env : Env) (o : Overlay) (info : CursorInfo) :
    Option LoadResult :=
  Overlay.idLoop cfg env cfg.CURSOR_ID_COUNT o info

/-- `Overlay::SetCursor`: the returned `Bool` and the overlay after the call. -/
def Overlay.SetCursor (cfg : Config) (env : Env) (o : Overlay) (info : CursorInfo) :
    Option (Bool × Overlay) :=
  match o._LoadCursor env info with
  | none => none
  | some (none, o1) => some (false, o1)
  | some (some cursor, o1) =>
    some (true, { o1 with
      _cursor_event := some cursor
      _in_frame_events := o1._in_frame_events ||| cfg.IN_FRAME_EVENT_SET_CURSOR })

/-- `Overlay::SetCursorIterated`: the returned `Bool`, the request after the
call (it is passed by reference) and the overlay after the call. -/
def Overlay.SetCursorIterated (cfg : Config) (env : Env) (o : Overlay) (info : CursorInfo) :
    Option (Bool × CursorInfo × Overlay) :=
  match o._LoadCursorIterated cfg env info with
  | none => none
  | some r =>
    match r.cursor with
    | none => some (false, r.info, r.overlay)
    | some cursor =>
      some (true, r.info, { r.overlay with
        _cursor_event := some cursor
        _in_frame_events := r.overlay._in_frame_events ||| cfg.IN_FRAME_EVENT_SET_CURSOR })

/-- `Overlay::SetCursorHidden`. -/
def Overlay.SetCursorHidden (cfg : Config) (o : Overlay) : Overlay :=
  { o with _in_frame_events :=
      cfg.IN_FRAME_EVENT_HIDE_CURSOR |||
        (o._in_frame_events &&& bitNot cfg.maskWidth cfg.IN_FRAME_EVENT_SET_CURSOR) }

/-- `Overlay::SetMessage`. -/
def Overlay.SetMessage (cfg : Config) (o : Overlay) (message : List Char) : Overlay :=
  { o with
    _message_event := message
    _in_frame_events := o._in_frame_events ||| cfg.IN_FRAME_EVENT_SET_MESSAGE }

/-- `Overlay::UninstallCursor`: the returned `Bool` and the overlay after the
call (`none` for an id outside the table). -/
def Overlay.UninstallCursor (o : Overlay) (id : CursorId) : Option (Bool × Overlay) :=
  match o._cursors[id]? with
  | none => none
  | some none => some (false, o)
  | some (some cursor) =>
    let o1 := o.store cursor (o.deref cursor).Shutdown
    some (true, { o1 with _cursors := o1._cursors.set id none })

/-- The loop of `_OnFrameEventResize` over the slots of `_cursors`. -/
def Overlay.resizeCursors (r : AspectRatio) : List (Option CursorPtr) → Overlay → Overlay
  | [], o => o
  | none :: rest, o => Overlay.resizeCursors r rest o
  | some cursor :: rest, o =>
    Overlay.resizeCursors r rest (o.store cursor ((o.deref cursor).SetAspectRatio r))

/-- `Overlay::_OnFrameEventResize`. -/
def Overlay._OnFrameEventResize (env : Env) (o : Overlay) (size : Vector2l) : Overlay :=
  let o1 := { o with _window := env.Window_SetSize o._window size }
  let o2 := { o1 with _render_context := o1._render_context.Resize o1._window.size }
  let o3 := { o2 with
    _basic_cursor := o2._basic_cursor.SetAspectRatio (env.Window_GetAspectRatio o2._window) }
  let o4 := Overlay.resizeCursors (env.Window_GetAspectRatio o3._window) o3._cursors o3
  { o4 with
    _text_popup := o4._text_popup.SetAspectRatio (env.Window_GetAspectRatio o4._window) }

/-- `Overlay::_OnFrameEventMessage`. -/
def Overlay._OnFrameEventMessage (env : Env) (o : Overlay) (message : List Char) : Overlay :=
  match env.GetWindowRect o._hover_hwnd with
  | some rect =>
    let position := env.ndsCenter rect o._window.size
    let timeout := (message.length * MESSAGE_TIMEOUT_PER_CHARACTER + 1000) % ULONG_MOD
    { o with _text_popup := o._text_popup.SetText message position timeout }
  | none => o

/-- `Overlay::_ProcessPreFrameEvents`. -/
def Overlay._ProcessPreFrameEvents (cfg : Config) (env : Env) (o : Overlay) : Overlay :=
  if o._pre_frame_events ≠ 0 then
    let o1 :=
      if maskHas o._pre_frame_events cfg.PRE_FRAME_EVENT_RESIZE then
        o._OnFrameEventResize env o._resize_event
      else o
    { o1 with _pre_frame_events := 0 }
  else o

/-- `Overlay::_ProcessInFrameEvents`. -/
def Overlay._ProcessInFrameEvents (cfg : Config) (env : Env) (o : Overlay) : Overlay :=
  if o._in_frame_events ≠ 0 then
    let o1 :=
      if maskHas o._in_frame_events cfg.IN_FRAME_EVENT_HIDE_CURSOR then
        { o with _active_cursor := none }
      else o
    let o2 :=
      if maskHas o1._in_frame_events cfg.IN_FRAME_EVENT_SET_CURSOR then
        { o1 with _active_cursor := o1._cursor_event }
      else o1
    let o3 :=
      if maskHas o2._in_frame_events cfg.IN_FRAME_EVENT_SET_MESSAGE then
        o2._OnFrameEventMessage env o2._message_event
      else o2
    { o3 with _in_frame_events := 0 }
  else o

/-- `Overlay::_OnDisplayChange(ULong width, ULong height)`. -/
def Overlay._OnDisplayChange (cfg : Config) (o : Overlay) (width height : Nat) : Overlay :=
  { o with
    _resize_event := ⟨ULongToLong width, ULongToLong height⟩
    _pre_frame_events := o._pre_frame_events ||| cfg.PRE_FRAME_EVENT_RESIZE }

/-! ## Collaborators of the lifecycle and of the frame loop -/

/-- Modelled from the spec: `IOverlayCursor::Initialize(render_context)`,
whose success or failure `ok` is decided outside the overlay: on success the
cursor is initialized, on failure it stays as it was. -/
def CursorObj.Initialize (c : CursorObj) (ok : Bool) : Bool × CursorObj :=
  if ok then (true, { c with initialized := true }) else (false, c)

/-- Modelled from the spec: `IOverlayCursor::Draw(nds_position)`; drawing
leaves the cursor as it is. -/
def CursorObj.Draw (c : CursorObj) (_nds_position : NdsPosition) : CursorObj := c

/-- Modelled from the spec: `TextPopup::IsActive`. -/
def TextPopup.IsActive (t : TextPopup) : Bool := t.active

/-- Modelled from the spec: `TextPopup::Draw`; drawing leaves the popup as it is. -/
def TextPopup.Draw (t : TextPopup) : TextPopup := t

/-- Modelled from the spec: `TextPopup::Shutdown`. -/
def TextPopup.Shutdown (t : TextPopup) : TextPopup := { t with active := false }

/-- Modelled from the spec: `Mouse::SetImprovedPrecision`. -/
def Mouse.SetImprovedPrecision (m : Mouse) (enable : Bool) : Mouse :=
  { m with improved_precision := enable }

/-- Modelled from the spec: `RenderContext::SetReduceLatency`. -/
def RenderContext.SetReduceLatency (rc : RenderContext) (enable : Bool) : RenderContext :=
  { rc with reduce_latency := enable }

/-- What the platform answers during one `Initialize`: the desktop resolution
(`GetSystemMetrics`) and, for each resource in the order of `_Initialize`,
whether its acquisition succeeds. -/
structure InitOutcome where
  desktop : Vector2l
  window : Bool
  render_context : Bool
  mouse : Bool
  basic_cursor : Bool
  text_popup : Bool
deriving DecidableEq, Repr

/-- What the platform answers during one pass of the frame loop: the result
of `_mouse.GetCursorPosition` (none when it fails) and `WindowFromPoint`. -/
structure FrameInput where
  pointer : Option (Vector2l × NdsPosition)
  WindowFromPoint : Vector2l → HWND

/-- What one pass of the frame loop does to its surroundings: the window
handle of the hover notification, whether the text popup was drawn, the cursor
drawn and where, and the `idle` argument of `RenderComplete`. -/
structure FrameReport where
  notified : Option HWND
  popup_drawn : Bool
  cursor_drawn : Option (CursorPtr × NdsPosition)
  idle : Bool
deriving DecidableEq, Repr

/-! ## The overlay: lifecycle, installation, frame loop -/

/-- `Overlay::IsInitialized`. -/
def Overlay.IsInitialized (o : Overlay) : Bool := o._initialized

/-- `Overlay::IsStarted`. -/
def Overlay.IsStarted (o : Overlay) : Bool := o._started

/-- `Overlay::IsCursorInstalled` (`none` for an id outside the table). -/
def Overlay.IsCursorInstalled (o : Overlay) (id : CursorId) : Option Bool :=
  match o._cursors[id]? with
  | none => none
  | some slot => some slot.isSome

/-- `Overlay::SetReduceLatency`. -/
def Overlay.SetReduceLatency (o : Overlay) (enable : Bool) : Overlay :=
  { o with
    _mouse := o._mouse.SetImprovedPrecision enable
    _render_context := o._render_context.SetReduceLatency enable }

/-- `Overlay::InstallCursor(id, cursor)`, with the outcome `initOk` of
`cursor.Initialize`: the returned `Bool` and the overlay after the call.  An
id outside the table has no defined behaviour (`none`): the assertion reads
the slot and the last statement writes it. -/
def Overlay.InstallCursor (env : Env) (o : Overlay) (id : CursorId) (cursor : CursorPtr)
    (initOk : Bool) : Option (Bool × Overlay) :=
  match o._cursors[id]? with
  | none => none
  | some _ =>
    let r := (o.deref cursor).Initialize initOk
    let o1 := o.store cursor r.2
    if r.1 then
      let o2 := o1.store cursor
        ((o1.deref cursor).SetAspectRatio (env.Window_GetAspectRatio o1._window))
      some (true, { o2 with _cursors := o2._cursors.set id (some cursor) })
    else some (false, o1)

/-- `Overlay::_Initialize`: the resources are acquired in order and the first
failure returns false.  The list of event listeners is kept by the window and
is not part of this record. -/
def Overlay._Initialize (env : Env) (o : Overlay) (r : InitOutcome) : Bool × Overlay :=
  if r.window then
    let o1 := { o with _window := ⟨r.desktop⟩ }
    if r.render_context then
      let o2 := { o1 with _render_context := { o1._render_context with size := o1._window.size } }
      if r.mouse then
        let b := o2._basic_cursor.Initialize r.basic_cursor
        if b.1 then
          let o3 := { o2 with
            _basic_cursor := b.2.SetAspectRatio (env.Window_GetAspectRatio o2._window) }
          if r.text_popup then
            (true, { o3 with
              _text_popup := o3._text_popup.SetAspectRatio (env.Window_GetAspectRatio o3._window) })
          else (false, o3)
        else (false, { o2 with _basic_cursor := b.2 })
      else (false, o2)
    else (false, o1)
  else (false, o)

/-- `Overlay::_Shutdown`. -/
def Overlay._Shutdown (o : Overlay) : Overlay :=
  { o with
    _text_popup := o._text_popup.Shutdown
    _basic_cursor := o._basic_cursor.Shutdown }

/-- `Overlay::Initialize`. -/
def Overlay.Initialize (env : Env) (o : Overlay) (r : InitOutcome) : Bool × Overlay :=
  let i := o._Initialize env r
  if i.1 then (true, { i.2 with _initialized := true })
  else (false, i.2._Shutdown)

/-- `Overlay::Shutdown`. -/
def Overlay.Shutdown (o : Overlay) : Overlay :=
  { o._Shutdown with _initialized := false }

/-- `Overlay::_InitializeThread`, with the handle `thread` that `CreateThread`
returns (none for `NULL`). -/
def Overlay._InitializeThread (o : Overlay) (thread : Option Nat) : Bool × Overlay :=
  let o1 := { o with _thread := thread }
  match thread with
  | none => (false, o1)
  | some _ => (true, { o1 with _active := true })

/-- `Overlay::_ShutdownThread`. -/
def Overlay._ShutdownThread (o : Overlay) : Overlay :=
  if o._active then { o with _active := false } else o

/-- `Overlay::Start` (release build: the `BUILD_DEBUG` block is compiled out). -/
def Overlay.Start (o : Overlay) (thread : Option Nat) : Bool × Overlay :=
  let t := o._InitializeThread thread
  if t.1 then (true, { t.2 with _started := true })
  else (false, t.2)

/-- `Overlay::Stop`. -/
def Overlay.Stop (o : Overlay) : Overlay :=
  { o._ShutdownThread with _started := false }

/-- `Overlay::_UpdateHoverState`: the overlay after it and the window handle
of the notification. -/
def Overlay._UpdateHoverState (o : Overlay) (input : FrameInput) (windows_position : Vector2l) :
    Overlay × HWND :=
  let hwnd := input.WindowFromPoint windows_position
  ({ o with _hover_hwnd := hwnd }, hwnd)

/-- `Overlay::_UpdateTextPopup`: the returned `Bool` and the overlay after it. -/
def Overlay._UpdateTextPopup (o : Overlay) : Bool × Overlay :=
  if o._text_popup.IsActive then (true, { o with _text_popup := o._text_popup.Draw })
  else (false, o)

/-- One pass through the body of `while( _active )` in `Overlay::_FrameLoop`. -/
def Overlay._FrameLoop_body (cfg : Config) (env : Env) (o : Overlay) (input : FrameInput) :
    Overlay × FrameReport :=
  let o1 := o._ProcessPreFrameEvents cfg env
  match input.pointer with
  | some (windows_position, nds_position) =>
    let h := o1._UpdateHoverState input windows_position
    let o3 := h.1._ProcessInFrameEvents cfg env
    let p := o3._UpdateTextPopup
    let idle := if p.1 then false else true
    match p.2._active_cursor with
    | some cursor =>
      (p.2.store cursor ((p.2.deref cursor).Draw nds_position),
        ⟨some h.2, p.1, some (cursor, nds_position), false⟩)
    | none => (p.2, ⟨some h.2, p.1, none, idle⟩)
  | none => (o1, ⟨none, false, none, true⟩)

/-! ## Vocabulary of the statements -/

/-- The cursor object a request addresses: the basic cursor, or the content of
the table slot of its id; none for any other type and for an empty slot. -/
def Overlay.addressed (o : Overlay) (info : CursorInfo) : Option CursorPtr :=
  match info.type with
  | .CURSOR_TYPE_BASIC => some .basic
  | .CURSOR_TYPE_OVERLAY => (o._cursors[info.id]?).join
  | .other _ => none

/-- The addressed cursor exists and adopts (id, variation, size) of the request. -/
def Overlay.adopts (env : Env) (o : Overlay) (info : CursorInfo) : Bool :=
  match o.addressed info with
  | some p => env.accepts p (o.deref p) info.id info.variation info.size
  | none => false

/-- The overlay after the addressed cursor adopted the request. -/
def Overlay.afterLoad (o : Overlay) (info : CursorInfo) : Overlay :=
  match o.addressed info with
  | some p => o.store p { o.deref p with variant := some (info.id, info.variation, info.size) }
  | none => o

/-- The call `_LoadCursor(info)` in state `o` returns a cursor. -/
def Overlay.loads (env : Env) (o : Overlay) (info : CursorInfo) : Bool :=
  match o._LoadCursor env info with
  | some (some _, _) => true
  | _ => false

/-- A list up to and including its first element that satisfies `p` (the whole
list when none does). -/
def uptoFirst {α : Type} (p : α → Bool) : List α → List α
  | [] => []
  | x :: xs => if p x then [x] else x :: uptoFirst p xs

/-- The pairs of one pass of the inner loop: `n` variations of `id`, from
`v` on, wrapping at `CURSOR_VARIATION_COUNT`. -/
def probeRow (cfg : Config) (id v n : Nat) : List (CursorId × CursorVariation) :=
  (List.range n).map (fun j => (id, (v + j) % cfg.CURSOR_VARIATION_COUNT))

/-- The pairs of `n` passes of the outer loop that starts at `(id, v)`: the
row of `id` from `v` on, then the rows of the following ids from variation 0. -/
def probeRows (cfg : Config) : Nat → Nat → Nat → List (CursorId × CursorVariation)
  | 0, _, _ => []
  | n + 1, id, v =>
    probeRow cfg id v cfg.CURSOR_VARIATION_COUNT ++
      probeRows cfg n ((id + 1) % cfg.CURSOR_ID_COUNT) 0

/-- The probing order of the cyclic search from `(id0, v0)`:
`(id0, v0), (id0, v0+1), ...` wrapping back to `(id0, v0-1)`, then
`(id0+1, 0), (id0+1, 1), ...` with the ids wrapping at `CURSOR_ID_COUNT`. -/
def probeOrder (cfg : Config) (id0 v0 : Nat) : List (CursorId × CursorVariation) :=
  (List.range cfg.CURSOR_ID_COUNT).flatMap (fun k =>
    probeRow cfg ((id0 + k) % cfg.CURSOR_ID_COUNT) (if k = 0 then v0 else 0)
      cfg.CURSOR_VARIATION_COUNT)

/-- The request of a probe: the type and size of `info` with the pair `q`. -/
def CursorInfo.withPair (info : CursorInfo) (q : CursorId × CursorVariation) : CursorInfo :=
  { info with id := q.1, variation := q.2 }

/-- The outcome of probing the pairs of `l` in order in state `o`, stopping
at the first pair that is adopted; `fallback` is the request left behind when
none is. -/
def Overlay.searchResult (env : Env) (o : Overlay) (info fallback : CursorInfo)
    (l : List (CursorId × CursorVariation)) : LoadResult :=
  match l.find? (fun q => o.adopts env (info.withPair q)) with
  | none => ⟨none, fallback, o, l⟩
  | some q =>
    ⟨o.addressed (info.withPair q), info.withPair q, o.afterLoad (info.withPair q),
      uptoFirst (fun q => o.adopts env (info.withPair q)) l⟩

/-- A run of display-change notifications, in order, with no drain between. -/
def Overlay.deliver (cfg : Config) (o : Overlay) : List (Nat × Nat) → Overlay
  | [] => o
  | wh :: rest => Overlay.deliver cfg (o._OnDisplayChange cfg wh.1 wh.2) rest

/-! ## Sequences of calls -/

/-- A call of the lifecycle interface, with what the platform answers. -/
inductive LifecycleCall where
  | Initialize (r : InitOutcome)
  | Shutdown
  | Start (thread : Option Nat)
  | Stop
deriving DecidableEq, Repr

/-- The `ASSERT`s at the head of a lifecycle call hold in state `o`. -/
def Overlay.lifecycleAsserts (o : Overlay) : LifecycleCall → Bool
  | .Initialize _ => !o.IsInitialized
  | .Shutdown => o.IsInitialized && !o.IsStarted
  | .Start _ => !o.IsStarted
  | .Stop => o.IsStarted

/-- The overlay after a lifecycle call. -/
def Overlay.lifecycleStep (env : Env) (o : Overlay) : LifecycleCall → Overlay
  | .Initialize r => (o.Initialize env r).2
  | .Shutdown => o.Shutdown
  | .Start thread => (o.Start thread).2
  | .Stop => o.Stop

/-- The overlay after a sequence of lifecycle calls; none as soon as a call is
made while one of its assertions fails. -/
def Overlay.lifecycleRun (env : Env) : Overlay → List LifecycleCall → Option Overlay
  | o, [] => some o
  | o, c :: rest =>
    if o.lifecycleAsserts c then Overlay.lifecycleRun env (o.lifecycleStep env c) rest
    else none

/-- The lifecycle flags are ordered: active implies started, started implies
initialized. -/
def Overlay.flagsOrdered (o : Overlay) : Prop :=
  (o._active = true → o._started = true) ∧ (o._started = true → o._initialized = true)

instance (o : Overlay) : Decidable o.flagsOrdered := by
  unfold Overlay.flagsOrdered; infer_instance

/-- A call of the configuration interface or a drain of the render thread. -/
inductive Op where
  | InstallCursor (id : CursorId) (cursor : CursorPtr) (initOk : Bool)
  | UninstallCursor (id : CursorId)
  | SetCursor (info : CursorInfo)
  | SetCursorIterated (info : CursorInfo)
  | SetCursorHidden
  | SetMessage (message : List Char)
  | ProcessPreFrameEvents
  | ProcessInFrameEvents
deriving DecidableEq, Repr

/-- The assertions of a call hold and its ids are inside the table. -/
def Overlay.opAllowed (cfg : Config) (o : Overlay) : Op → Prop
  | .InstallCursor id _ _ => o.IsInitialized = true ∧ o._cursors[id]? = some none
  | .UninstallCursor id => o.IsInitialized = true ∧ id < o._cursors.length
  | .SetCursor info => info.type = .CURSOR_TYPE_OVERLAY → info.id < o._cursors.length
  | .SetCursorIterated info =>
    o._cursors.length = cfg.CURSOR_ID_COUNT ∧ info.id < cfg.CURSOR_ID_COUNT ∧
      info.variation < cfg.CURSOR_VARIATION_COUNT
  | _ => True

instance (cfg : Config) (o : Overlay) (op : Op) : Decidable (o.opAllowed cfg op) := by
  cases op <;> unfold Overlay.opAllowed <;> infer_instance

/-- The overlay after a call (none where the call has no defined behaviour). -/
def Overlay.opStep (cfg : Config) (env : Env) (o : Overlay) : Op → Option Overlay
  | .InstallCursor id cursor initOk => (o.InstallCursor env id cursor initOk).map (·.2)
  | .UninstallCursor id => (o.UninstallCursor id).map (·.2)
  | .SetCursor info => (o.SetCursor cfg env info).map (·.2)
  | .SetCursorIterated info => (o.SetCursorIterated cfg env info).map (·.2.2)
  | .SetCursorHidden => some (o.SetCursorHidden cfg)
  | .SetMessage message => some (o.SetMessage cfg message)
  | .ProcessPreFrameEvents => some (o._ProcessPreFrameEvents cfg env)
  | .ProcessInFrameEvents => some (o._ProcessInFrameEvents cfg env)

/-- The overlay after a sequence of calls, each allowed where it is made. -/
def Overlay.opRun (cfg : Config) (env : Env) : Overlay → List Op → Option Overlay
  | o, [] => some o
  | o, op :: rest =>
    if o.opAllowed cfg op then
      match o.opStep cfg env op with
      | some o1 => Overlay.opRun cfg env o1 rest
      | none => none
    else none

/-- A nullable cursor pointer is none, the basic cursor, or in the table. -/
def Overlay.cursorKnown (o : Overlay) (c : Option CursorPtr) : Prop :=
  c = none ∨ c = some .basic ∨ c ∈ o._cursors

instance (o : Overlay) (c : Option CursorPtr) : Decidable (o.cursorKnown c) := by
  unfold Overlay.cursorKnown; infer_instance

/-- The active cursor is known, and so is the pending cursor whenever the
set-cursor bit is set. -/
def Overlay.cursorsKnown (cfg : Config) (o : Overlay) : Prop :=
  o.cursorKnown o._active_cursor ∧
    (maskHas o._in_frame_events cfg.IN_FRAME_EVENT_SET_CURSOR = true →
      o.cursorKnown o._cursor_event)

instance (cfg : Config) (o : Overlay) : Decidable (o.cursorsKnown cfg) := by
  unfold Overlay.cursorsKnown; infer_instance

/-- The call does not uninstall the cursor that is active, nor the cursor that
is pending while the set-cursor bit is set. -/
def Overlay.keepsCursorsInUse (cfg : Config) (o : Overlay) : Op → Prop
  | .UninstallCursor id =>
    ∀ p ∈ (o._cursors[id]?).join,
      o._active_cursor ≠ some p ∧
        (maskHas o._in_frame_events cfg.IN_FRAME_EVENT_SET_CURSOR = true →
          o._cursor_event ≠ some p)
  | _ => True

instance (cfg : Config) (o : Overlay) (op : Op) : Decidable (o.keepsCursorsInUse cfg op) := by
  cases op <;> unfold Overlay.keepsCursorsInUse <;> infer_instance

/-- The overlay after a sequence of allowed calls none of which uninstalls a
cursor in use. -/
def Overlay.opRunKeeping (cfg : Config) (env : Env) : Overlay → List Op → Option Overlay
  | o, [] => some o
  | o, op :: rest =>
    if o.opAllowed cfg op ∧ o.keepsCursorsInUse cfg op then
      match o.opStep cfg env op with
      | some o1 => Overlay.opRunKeeping cfg env o1 rest
      | none => none
    else none

/-- The overlay of one pass of the frame loop right after its in-frame drain,
when the pointer is at `windows_position`. -/
def Overlay.afterInFrameDrain (cfg : Config) (env : Env) (o : Overlay) (input : FrameInput)
    (windows_position : Vector2l) : Overlay :=
  ((o._ProcessPreFrameEvents cfg env)._UpdateHoverState input
    windows_position).1._ProcessInFrameEvents cfg env

/-! ## The drains, statement by statement -/

/-- The hide statement of `_ProcessInFrameEvents`: the overlay after it and
whether its test found the bit. -/
def Overlay.drainHideStep (cfg : Config) (o : Overlay) : Overlay × Bool :=
  if maskHas o._in_frame_events cfg.IN_FRAME_EVENT_HIDE_CURSOR then
    ({ o with _active_cursor := none }, true)
  else (o, false)

/-- The set-cursor statement of `_ProcessInFrameEvents`. -/
def Overlay.drainSetStep (cfg : Config) (o : Overlay) : Overlay × Bool :=
  if maskHas o._in_frame_events cfg.IN_FRAME_EVENT_SET_CURSOR then
    ({ o with _active_cursor := o._cursor_event }, true)
  else (o, false)

/-- The set-message statement of `_ProcessInFrameEvents`. -/
def Overlay.drainMessageStep (cfg : Config) (env : Env) (o : Overlay) : Overlay × Bool :=
  if maskHas o._in_frame_events cfg.IN_FRAME_EVENT_SET_MESSAGE then
    (o._OnFrameEventMessage env o._message_event, true)
  else (o, false)

/-- The last statement of `_ProcessInFrameEvents`: `_in_frame_events = 0`. -/
def Overlay.drainClearStep (o : Overlay) : Overlay :=
  { o with _in_frame_events := 0 }

/-- The resize statement of `_ProcessPreFrameEvents`. -/
def Overlay.drainResizeStep (cfg : Config) (env : Env) (o : Overlay) : Overlay × Bool :=
  if maskHas o._pre_frame_events cfg.PRE_FRAME_EVENT_RESIZE then
    (o._OnFrameEventResize env o._resize_event, true)
  else (o, false)

/-- The last statement of `_ProcessPreFrameEvents`: `_pre_frame_events = 0`. -/
def Overlay.drainClearPreStep (o : Overlay) : Overlay :=
  { o with _pre_frame_events := 0 }

/-- Event bits 0, 1, 2 in a 32-bit mask, eight cursor ids of ten variations. -/
def cfg0 : Config :=
  { CURSOR_ID_COUNT := 8, CURSOR_VARIATION_COUNT := 10, maskWidth := 32
    hideCursorBit := 0, setCursorBit := 1, setMessageBit := 2, resizeBit := 0 }

/-- A cursor object that is initialized and holds no variant. -/
def cursor0 : CursorObj := ⟨true, 0, none⟩

/-- Collaborators whose cursors adopt every request; no window has a rectangle. -/
def envAll : Env :=
  { accepts := fun _ _ _ _ _ => true
    Window_SetSize := fun _ s => ⟨s⟩
    Window_GetAspectRatio := fun w => w.size.x.toNat
    GetWindowRect := fun _ => none
    ndsCenter := fun _ _ => 0 }

/-- Collaborators whose cursors adopt variation 0 only; window 7 has a rectangle. -/
def envZero : Env :=
  { accepts := fun _ _ _ v _ => v == 0
    Window_SetSize := fun _ s => ⟨s⟩
    Window_GetAspectRatio := fun w => w.size.x.toNat
    GetWindowRect := fun h => if h = 7 then some ⟨0, 0, 640, 480⟩ else none
    ndsCenter := fun _ _ => 0 }

/-- Collaborators whose cursors refuse every request. -/
def envNone : Env :=
  { accepts := fun _ _ _ _ _ => false
    Window_SetSize := fun _ s => ⟨s⟩
    Window_GetAspectRatio := fun w => w.size.x.toNat
    GetWindowRect := fun _ => none
    ndsCenter := fun _ _ => 0 }

/-- A freshly constructed overlay with an empty table. -/
def overlay0 : Overlay := Overlay.new cfg0 none cursor0 (fun _ => cursor0)

/-- The overlay `overlay0` with the caller's cursor object 5 in slot 2. -/
def overlay2 : Overlay := { overlay0 with _cursors := overlay0._cursors.set 2 (some (.ext 5)) }

/-- The overlay `overlay0` after a successful `Initialize`. -/
def overlay1 : Overlay :=
  (overlay0.Initialize envZero ⟨⟨1920, 1080⟩, true, true, true, true, true⟩).2

theorem maskHas_two_pow (m k : Nat) : maskHas m (2 ^ k) = m.testBit k := by
  unfold maskHas
  rw [Nat.and_two_pow]
  cases h : m.testBit k <;> simp

theorem maskHas_or_self (m k : Nat) : maskHas (m ||| 2 ^ k) (2 ^ k) = true := by
  rw [maskHas_two_pow, Nat.testBit_or, Nat.testBit_two_pow_self, Bool.or_true]

theorem or_two_pow_ne_zero (m k : Nat) : m ||| 2 ^ k ≠ 0 := by
  intro h
  have := maskHas_or_self m k
  rw [h] at this
  simp [maskHas] at this

theorem testBit_or_two_pow_of_ne (m k i : Nat) (h : i ≠ k) :
    (m ||| 2 ^ k).testBit i = m.testBit i := by
  rw [Nat.testBit_or, Nat.testBit_two_pow_of_ne (Ne.symm h), Bool.or_false]

theorem testBit_hidden (w m hb sb i : Nat) :
    (2 ^ hb ||| (m &&& bitNot w (2 ^ sb))).testBit i =
      (decide (hb = i) || (m.testBit i && (decide (sb = i) ^^ decide (i < w)))) := by
  unfold bitNot
  rw [Nat.testBit_or, Nat.testBit_and, Nat.testBit_xor, Nat.testBit_two_pow,
    Nat.testBit_two_pow, Nat.testBit_two_pow_sub_one]

/-! ## Pointers -/

@[simp] theorem Overlay.store_active_cursor (o : Overlay) (p : CursorPtr) (c : CursorObj) :
    (o.store p c)._active_cursor = o._active_cursor := by cases p <;> rfl

@[simp] theorem Overlay.store_in_frame_events (o : Overlay) (p : CursorPtr) (c : CursorObj) :
    (o.store p c)._in_frame_events = o._in_frame_events := by cases p <;> rfl

@[simp] theorem Overlay.store_pre_frame_events (o : Overlay) (p : CursorPtr) (c : CursorObj) :
    (o.store p c)._pre_frame_events = o._pre_frame_events := by cases p <;> rfl

@[simp] theorem Overlay.store_cursor_event (o : Overlay) (p : CursorPtr) (c : CursorObj) :
    (o.store p c)._cursor_event = o._cursor_event := by cases p <;> rfl

@[simp] theorem Overlay.store_message_event (o : Overlay) (p : CursorPtr) (c : CursorObj) :
    (o.store p c)._message_event = o._message_event := by cases p <;> rfl

@[simp] theorem Overlay.store_cursors (o : Overlay) (p : CursorPtr) (c : CursorObj) :
    (o.store p c)._cursors = o._cursors := by cases p <;> rfl

@[simp] theorem Overlay.store_window (o : Overlay) (p : CursorPtr) (c : CursorObj) :
    (o.store p c)._window = o._window := by cases p <;> rfl

@[simp] theorem Overlay.store_render_context (o : Overlay) (p : CursorPtr) (c : CursorObj) :
    (o.store p c)._render_context = o._render_context := by cases p <;> rfl

@[simp] theorem Overlay.store_text_popup (o : Overlay) (p : CursorPtr) (c : CursorObj) :
    (o.store p c)._text_popup = o._text_popup := by cases p <;> rfl

@[simp] theorem Overlay.store_hover_hwnd (o : Overlay) (p : CursorPtr) (c : CursorObj) :
    (o.store p c)._hover_hwnd = o._hover_hwnd := by cases p <;> rfl

@[simp] theorem Overlay.store_resize_event (o : Overlay) (p : CursorPtr) (c : CursorObj) :
    (o.store p c)._resize_event = o._resize_event := by cases p <;> rfl

@[simp] theorem Overlay.deref_store_self (o : Overlay) (p : CursorPtr) (c : CursorObj) :
    (o.store p c).deref p = c := by
  cases p <;> simp [Overlay.store, Overlay.deref]

theorem Overlay.deref_store_of_ne (o : Overlay) (p q : CursorPtr) (c : CursorObj) (h : q ≠ p) :
    (o.store p c).deref q = o.deref q := by
  cases p <;> cases q <;> simp_all [Overlay.store, Overlay.deref]

theorem Overlay.store_deref (o : Overlay) (p : CursorPtr) : o.store p (o.deref p) = o := by
  cases p with
  | basic => rfl
  | ext a =>
    have : (fun b => if b = a then o.heap a else o.heap b) = o.heap := by
      funext b; split <;> simp_all
    simp only [Overlay.store, Overlay.deref, this]

/-! ## `_LoadCursor` -/

/-- The result of `_LoadCursor` for a request whose id indexes the table when
its type is `CURSOR_TYPE_OVERLAY`. -/
theorem Overlay._LoadCursor_eq (env : Env) (o : Overlay) (info : CursorInfo)
    (h : info.type = .CURSOR_TYPE_OVERLAY → info.id < o._cursors.length) :
    o._LoadCursor env info =
      some (if o.adopts env info then (o.addressed info, o.afterLoad info) else (none, o)) := by
  obtain ⟨ty, id, v, sz⟩ := info
  cases ty with
  | CURSOR_TYPE_BASIC =>
    simp only [Overlay._LoadCursor, Overlay.adopts, Overlay.addressed, Overlay.afterLoad,
      CursorObj.SetCursor, Overlay.deref, Overlay.store]
    cases env.accepts CursorPtr.basic o._basic_cursor id v sz <;> simp
  | other c =>
    simp [Overlay._LoadCursor, Overlay.adopts, Overlay.addressed]
  | CURSOR_TYPE_OVERLAY =>
    have hlt : id < o._cursors.length := h rfl
    simp only [Overlay._LoadCursor, Overlay.adopts, Overlay.addressed, Overlay.afterLoad,
      CursorObj.SetCursor]
    rw [List.getElem?_eq_getElem hlt]
    cases o._cursors[id] with
    | none => simp
    | some p =>
      simp only [Option.join]
      cases ha : env.accepts p (o.deref p) id v sz <;> simp [ha, Overlay.store_deref]

theorem Overlay._LoadCursor_eq_none (env : Env) (o : Overlay) (info : CursorInfo) :
    o._LoadCursor env info = none ↔
      info.type = .CURSOR_TYPE_OVERLAY ∧ o._cursors.length ≤ info.id := by
  constructor
  · intro h
    by_contra hc
    have hs : info.type = .CURSOR_TYPE_OVERLAY → info.id < o._cursors.length := by
      intro ht
      by_contra hlt
      exact hc ⟨ht, Nat.le_of_not_lt hlt⟩
    rw [Overlay._LoadCursor_eq env o info hs] at h
    exact Option.noConfusion h
  · rintro ⟨ht, hle⟩
    obtain ⟨ty, id, v, sz⟩ := info
    subst ht
    simp only [Overlay._LoadCursor]
    rw [List.getElem?_eq_none hle]

@[simp] theorem Overlay.afterLoad_in_frame_events (o : Overlay) (info : CursorInfo) :
    (o.afterLoad info)._in_frame_events = o._in_frame_events := by
  unfold Overlay.afterLoad; split <;> simp

@[simp] theorem Overlay.afterLoad_cursor_event (o : Overlay) (info : CursorInfo) :
    (o.afterLoad info)._cursor_event = o._cursor_event := by
  unfold Overlay.afterLoad; split <;> simp

@[simp] theorem Overlay.afterLoad_active_cursor (o : Overlay) (info : CursorInfo) :
    (o.afterLoad info)._active_cursor = o._active_cursor := by
  unfold Overlay.afterLoad; split <;> simp

@[simp] theorem Overlay.afterLoad_cursors (o : Overlay) (info : CursorInfo) :
    (o.afterLoad info)._cursors = o._cursors := by
  unfold Overlay.afterLoad; split <;> simp

@[simp] theorem Overlay.afterLoad_message_event (o : Overlay) (info : CursorInfo) :
    (o.afterLoad info)._message_event = o._message_event := by
  unfold Overlay.afterLoad; split <;> simp

theorem Overlay.adopts_addressed (env : Env) (o : Overlay) (info : CursorInfo)
    (h : o.adopts env info = true) : ∃ p, o.addressed info = some p := by
  unfold Overlay.adopts at h
  cases hp : o.addressed info with
  | none => rw [hp] at h; exact Bool.noConfusion h
  | some p => exact ⟨p, rfl⟩

theorem Overlay.loads_eq_adopts (env : Env) (o : Overlay) (info : CursorInfo)
    (h : info.type = .CURSOR_TYPE_OVERLAY → info.id < o._cursors.length) :
    o.loads env info = o.adopts env info := by
  unfold Overlay.loads
  rw [Overlay._LoadCursor_eq env o info h]
  cases ha : o.adopts env info with
  | false => simp
  | true =>
    obtain ⟨p, hp⟩ := Overlay.adopts_addressed env o info ha
    simp [hp]

/-! ## The in-frame drain -/

@[simp] theorem Overlay._OnFrameEventMessage_active_cursor (env : Env) (o : Overlay)
    (m : List Char) : (o._OnFrameEventMessage env m)._active_cursor = o._active_cursor := by
  unfold Overlay._OnFrameEventMessage; split <;> rfl

@[simp] theorem Overlay._OnFrameEventMessage_cursor_event (env : Env) (o : Overlay)
    (m : List Char) : (o._OnFrameEventMessage env m)._cursor_event = o._cursor_event := by
  unfold Overlay._OnFrameEventMessage; split <;> rfl

/-- The active cursor after the in-frame drain, read off the mask. -/
theorem Overlay._ProcessInFrameEvents_active_cursor (cfg : Config) (env : Env) (o : Overlay) :
    (o._ProcessInFrameEvents cfg env)._active_cursor =
      if o._in_frame_events = 0 then o._active_cursor
      else if maskHas o._in_frame_events cfg.IN_FRAME_EVENT_SET_CURSOR then o._cursor_event
      else if maskHas o._in_frame_events cfg.IN_FRAME_EVENT_HIDE_CURSOR then none
      else o._active_cursor := by
  unfold Overlay._ProcessInFrameEvents
  by_cases h0 : o._in_frame_events = 0
  · simp [h0]
  · simp only [h0, ne_eq, not_false_eq_true, if_true, if_false]
    cases hh : maskHas o._in_frame_events cfg.IN_FRAME_EVENT_HIDE_CURSOR <;>
      cases hs : maskHas o._in_frame_events cfg.IN_FRAME_EVENT_SET_CURSOR <;>
      cases hm : maskHas o._in_frame_events cfg.IN_FRAME_EVENT_SET_MESSAGE <;>
      simp [hh, hs, hm]


theorem Overlay._LoadCursor_some (env : Env) (o o1 : Overlay) (info : CursorInfo)
    (r : Option CursorPtr) (h : o._LoadCursor env info = some (r, o1)) :
    (info.type = .CURSOR_TYPE_OVERLAY → info.id < o._cursors.length) ∧
      (r, o1) = if o.adopts env info then (o.addressed info, o.afterLoad info) else (none, o) := by
  have hs : info.type = .CURSOR_TYPE_OVERLAY → info.id < o._cursors.length := by
    intro ht
    by_contra hlt
    have := (Overlay._LoadCursor_eq_none env o info).2 ⟨ht, Nat.le_of_not_lt hlt⟩
    rw [this] at h
    exact Option.noConfusion h
  refine ⟨hs, ?_⟩
  rw [Overlay._LoadCursor_eq env o info hs] at h
  exact (Option.some.inj h).symm

/-- A call of `_LoadCursor` that returns a cursor returns the addressed one,
which adopted the request. -/
theorem Overlay._LoadCursor_some_some (env : Env) (o o1 : Overlay) (info : CursorInfo)
    (c : CursorPtr) (h : o._LoadCursor env info = some (some c, o1)) :
    o.adopts env info = true ∧ o.addressed info = some c ∧ o1 = o.afterLoad info := by
  obtain ⟨_, he⟩ := Overlay._LoadCursor_some env o o1 info (some c) h
  cases ha : o.adopts env info with
  | false => rw [ha] at he; simp at he
  | true =>
    rw [ha] at he
    simp only [if_true, Prod.mk.injEq] at he
    exact ⟨rfl, he.1.symm, he.2⟩

/-- A call of `_LoadCursor` that returns no cursor leaves the overlay as it was. -/
theorem Overlay._LoadCursor_some_none (env : Env) (o o1 : Overlay) (info : CursorInfo)
    (h : o._LoadCursor env info = some (none, o1)) :
    o.adopts env info = false ∧ o1 = o := by
  obtain ⟨_, he⟩ := Overlay._LoadCursor_some env o o1 info none h
  cases ha : o.adopts env info with
  | false =>
    rw [ha] at he
    simp only [Bool.false_eq_true, if_false, Prod.mk.injEq, true_and] at he
    exact ⟨rfl, he⟩
  | true =>
    obtain ⟨p, hp⟩ := Overlay.adopts_addressed env o info ha
    rw [ha, hp] at he
    simp at he

/-- A successful `SetCursor`, unfolded. -/
theorem Overlay.SetCursor_true (cfg : Config) (env : Env) (o o1 : Overlay) (info : CursorInfo)
    (h : o.SetCursor cfg env info = some (true, o1)) :
    ∃ c, o._LoadCursor env info = some (some c, o.afterLoad info) ∧
      o1 = { o.afterLoad info with
        _cursor_event := some c
        _in_frame_events := o._in_frame_events ||| cfg.IN_FRAME_EVENT_SET_CURSOR } := by
  unfold Overlay.SetCursor at h
  cases hl : o._LoadCursor env info with
  | none => rw [hl] at h; exact Option.noConfusion h
  | some r =>
    obtain ⟨r1, o2⟩ := r
    cases r1 with
    | none => rw [hl] at h; simp at h
    | some c =>
      rw [hl] at h
      obtain ⟨_, _, ho2⟩ := Overlay._LoadCursor_some_some env o o2 info c hl
      subst ho2
      simp only [Option.some.injEq, Prod.mk.injEq, true_and] at h
      refine ⟨c, rfl, ?_⟩
      rw [← h]
      simp

/-! ## Hide and set in one frame -/

/-- C1, as stated, fails in the order set then hide: in a fresh overlay a
`SetCursor` for the basic cursor is accepted and selects it, `SetCursorHidden`
follows with no drain between, and the next in-frame drain leaves the active
cursor none. -/
theorem C1_set_then_hide_counterexample :
    ∃ o1, overlay0.SetCursor cfg0 envAll ⟨.CURSOR_TYPE_BASIC, 0, 0, 32⟩ = some (true, o1) ∧
      o1._cursor_event = some .basic ∧
      ((o1.SetCursorHidden cfg0)._ProcessInFrameEvents cfg0 envAll)._active_cursor = none :=
  ⟨_, rfl, rfl, by decide⟩

/-- C1 (amended): when `SetCursorHidden` is called and then a `SetCursor` that
is accepted, with no drain between them, the next `_ProcessInFrameEvents`
makes the cursor that `SetCursor` selected (the one `_LoadCursor` returned,
now pending) the active cursor; it is not none. -/
theorem C1_hide_then_set (cfg : Config) (env : Env) (o o1 : Overlay) (info : CursorInfo)
    (h : (o.SetCursorHidden cfg).SetCursor cfg env info = some (true, o1)) :
    ∃ c o2, (o.SetCursorHidden cfg)._LoadCursor env info = some (some c, o2) ∧
      o1._cursor_event = some c ∧
      (o1._ProcessInFrameEvents cfg env)._active_cursor = some c := by
  obtain ⟨c, hl, ho1⟩ := Overlay.SetCursor_true cfg env _ o1 info h
  refine ⟨c, _, hl, ?_, ?_⟩
  · rw [ho1]
  · rw [Overlay._ProcessInFrameEvents_active_cursor]
    have hm : o1._in_frame_events =
        (o.SetCursorHidden cfg)._in_frame_events ||| 2 ^ cfg.setCursorBit := by
      rw [ho1]; rfl
    have hc : o1._cursor_event = some c := by rw [ho1]
    rw [if_neg (by rw [hm]; exact or_two_pow_ne_zero _ _)]
    rw [if_pos (by rw [hm]; exact maskHas_or_self _ _), hc]

theorem C1_hide_then_set_witness :
    ∃ o1, (overlay0.SetCursorHidden cfg0).SetCursor cfg0 envAll ⟨.CURSOR_TYPE_BASIC, 0, 0, 32⟩
        = some (true, o1) ∧
      ∃ c o2, (overlay0.SetCursorHidden cfg0)._LoadCursor envAll ⟨.CURSOR_TYPE_BASIC, 0, 0, 32⟩
          = some (some c, o2) ∧
        o1._cursor_event = some c ∧
        (o1._ProcessInFrameEvents cfg0 envAll)._active_cursor = some c :=
  ⟨_, rfl, C1_hide_then_set cfg0 envAll overlay0 _ ⟨.CURSOR_TYPE_BASIC, 0, 0, 32⟩ rfl⟩

/-- C2: `SetCursorHidden` after a successful `SetCursor`, with no drain
between them, supersedes the pending set-cursor intent: the in-frame mask has
the hide-cursor bit set and the set-cursor bit clear, its set-message bit is
what it was before `SetCursorHidden` (and before `SetCursor`), and the next
`_ProcessInFrameEvents` leaves the active cursor none. -/
theorem C2_hide_supersedes_pending_set (cfg : Config) (hcfg : cfg.WellFormed) (env : Env)
    (o o1 : Overlay) (info : CursorInfo)
    (h : o.SetCursor cfg env info = some (true, o1)) :
    maskHas o1._in_frame_events cfg.IN_FRAME_EVENT_SET_CURSOR = true ∧
      maskHas (o1.SetCursorHidden cfg)._in_frame_events cfg.IN_FRAME_EVENT_HIDE_CURSOR = true ∧
      maskHas (o1.SetCursorHidden cfg)._in_frame_events cfg.IN_FRAME_EVENT_SET_CURSOR = false ∧
      maskHas (o1.SetCursorHidden cfg)._in_frame_events cfg.IN_FRAME_EVENT_SET_MESSAGE =
        maskHas o1._in_frame_events cfg.IN_FRAME_EVENT_SET_MESSAGE ∧
      maskHas o1._in_frame_events cfg.IN_FRAME_EVENT_SET_MESSAGE =
        maskHas o._in_frame_events cfg.IN_FRAME_EVENT_SET_MESSAGE ∧
      ((o1.SetCursorHidden cfg)._ProcessInFrameEvents cfg env)._active_cursor = none := by
  obtain ⟨hh, hs, hm, _, hhs, hhm, hsm⟩ := hcfg
  obtain ⟨c, _, ho1⟩ := Overlay.SetCursor_true cfg env o o1 info h
  have hm1 : o1._in_frame_events = o._in_frame_events ||| 2 ^ cfg.setCursorBit := by
    rw [ho1]; rfl
  have hm2 : (o1.SetCursorHidden cfg)._in_frame_events =
      2 ^ cfg.hideCursorBit |||
        (o1._in_frame_events &&& bitNot cfg.maskWidth (2 ^ cfg.setCursorBit)) := rfl
  have hhide : maskHas (o1.SetCursorHidden cfg)._in_frame_events
      cfg.IN_FRAME_EVENT_HIDE_CURSOR = true := by
    rw [hm2, Config.IN_FRAME_EVENT_HIDE_CURSOR, maskHas_two_pow, testBit_hidden]
    simp
  have hset : maskHas (o1.SetCursorHidden cfg)._in_frame_events
      cfg.IN_FRAME_EVENT_SET_CURSOR = false := by
    rw [hm2, Config.IN_FRAME_EVENT_SET_CURSOR, maskHas_two_pow, testBit_hidden]
    simp [hhs, hs]
  refine ⟨?_, hhide, hset, ?_, ?_, ?_⟩
  · rw [hm1]; exact maskHas_or_self _ _
  · rw [hm2, Config.IN_FRAME_EVENT_SET_MESSAGE, maskHas_two_pow, maskHas_two_pow,
      testBit_hidden]
    simp [hhm, hsm, hm]
  · rw [hm1, Config.IN_FRAME_EVENT_SET_MESSAGE, maskHas_two_pow, maskHas_two_pow,
      testBit_or_two_pow_of_ne _ _ _ (Ne.symm hsm)]
  · rw [Overlay._ProcessInFrameEvents_active_cursor, hset, hhide]
    have hne : (o1.SetCursorHidden cfg)._in_frame_events ≠ 0 := by
      intro h0
      rw [h0] at hhide
      simp [maskHas] at hhide
    simp [hne]

theorem C2_hide_supersedes_pending_set_witness :
    cfg0.WellFormed ∧
    ∃ o1, overlay0.SetCursor cfg0 envAll ⟨.CURSOR_TYPE_BASIC, 0, 0, 32⟩ = some (true, o1) ∧
      (maskHas o1._in_frame_events cfg0.IN_FRAME_EVENT_SET_CURSOR = true ∧
      maskHas (o1.SetCursorHidden cfg0)._in_frame_events cfg0.IN_FRAME_EVENT_HIDE_CURSOR = true ∧
      maskHas (o1.SetCursorHidden cfg0)._in_frame_events cfg0.IN_FRAME_EVENT_SET_CURSOR = false ∧
      maskHas (o1.SetCursorHidden cfg0)._in_frame_events cfg0.IN_FRAME_EVENT_SET_MESSAGE =
        maskHas o1._in_frame_events cfg0.IN_FRAME_EVENT_SET_MESSAGE ∧
      maskHas o1._in_frame_events cfg0.IN_FRAME_EVENT_SET_MESSAGE =
        maskHas overlay0._in_frame_events cfg0.IN_FRAME_EVENT_SET_MESSAGE ∧
      ((o1.SetCursorHidden cfg0)._ProcessInFrameEvents cfg0 envAll)._active_cursor = none) :=
  ⟨by decide, _, rfl,
    C2_hide_supersedes_pending_set cfg0 (by decide) envAll overlay0 _
      ⟨.CURSOR_TYPE_BASIC, 0, 0, 32⟩ rfl⟩


/-! ## `SetCursor` -/

/-- C6: for a request whose id indexes the table when its type is
`CURSOR_TYPE_OVERLAY`, `SetCursor` returns; it returns false exactly when
`_LoadCursor` yields no cursor, which is exactly when the type is neither
basic nor overlay, or the type is overlay and the slot of the id is empty, or
the addressed cursor refuses (id, variation, size).  On false the overlay is
unchanged (mask, pending cursor and active cursor included).  On true the
pending cursor is the cursor `_LoadCursor` returned, the set-cursor bit is
set, every other bit of the in-frame mask is unchanged, and so is the active
cursor. -/
theorem C6_SetCursor_outcome (cfg : Config) (env : Env) (o : Overlay) (info : CursorInfo)
    (hsafe : info.type = .CURSOR_TYPE_OVERLAY → info.id < o._cursors.length) :
    ∃ b o1, o.SetCursor cfg env info = some (b, o1) ∧
      (b = false ↔ ∃ o2, o._LoadCursor env info = some (none, o2)) ∧
      (b = false ↔
        ((info.type ≠ .CURSOR_TYPE_BASIC ∧ info.type ≠ .CURSOR_TYPE_OVERLAY) ∨
         (info.type = .CURSOR_TYPE_OVERLAY ∧ o._cursors[info.id]? = some none) ∨
         (info.type = .CURSOR_TYPE_BASIC ∧
            env.accepts .basic o._basic_cursor info.id info.variation info.size = false) ∨
         (info.type = .CURSOR_TYPE_OVERLAY ∧ ∃ p, o._cursors[info.id]? = some (some p) ∧
            env.accepts p (o.deref p) info.id info.variation info.size = false))) ∧
      (b = false → o1 = o ∧ o1._in_frame_events = o._in_frame_events ∧
        o1._cursor_event = o._cursor_event ∧ o1._active_cursor = o._active_cursor) ∧
      (b = true → ∃ c o2, o._LoadCursor env info = some (some c, o2) ∧
        o1._cursor_event = some c ∧
        maskHas o1._in_frame_events cfg.IN_FRAME_EVENT_SET_CURSOR = true ∧
        (∀ i, i ≠ cfg.setCursorBit →
          o1._in_frame_events.testBit i = o._in_frame_events.testBit i) ∧
        o1._active_cursor = o._active_cursor) := by
  have hl := Overlay._LoadCursor_eq env o info hsafe
  have hcond : o.adopts env info = false ↔
      ((info.type ≠ .CURSOR_TYPE_BASIC ∧ info.type ≠ .CURSOR_TYPE_OVERLAY) ∨
       (info.type = .CURSOR_TYPE_OVERLAY ∧ o._cursors[info.id]? = some none) ∨
       (info.type = .CURSOR_TYPE_BASIC ∧
          env.accepts .basic o._basic_cursor info.id info.variation info.size = false) ∨
       (info.type = .CURSOR_TYPE_OVERLAY ∧ ∃ p, o._cursors[info.id]? = some (some p) ∧
          env.accepts p (o.deref p) info.id info.variation info.size = false)) := by
    obtain ⟨ty, id, v, sz⟩ := info
    cases ty with
    | CURSOR_TYPE_BASIC => simp [Overlay.adopts, Overlay.addressed, Overlay.deref]
    | other c => simp [Overlay.adopts, Overlay.addressed]
    | CURSOR_TYPE_OVERLAY =>
      have hlt : id < o._cursors.length := hsafe rfl
      simp only [Overlay.adopts, Overlay.addressed]
      rw [List.getElem?_eq_getElem hlt]
      cases o._cursors[id] with
      | none => simp
      | some p => simp
  cases ha : o.adopts env info with
  | false =>
    rw [ha] at hl
    simp only [Bool.false_eq_true, if_false] at hl
    refine ⟨false, o, ?_, ?_, ?_, ?_, ?_⟩
    · simp [Overlay.SetCursor, hl]
    · exact ⟨fun _ => ⟨o, hl⟩, fun _ => rfl⟩
    · exact ⟨fun _ => hcond.1 ha, fun _ => rfl⟩
    · intro _; exact ⟨rfl, rfl, rfl, rfl⟩
    · intro hb; exact Bool.noConfusion hb
  | true =>
    obtain ⟨p, hp⟩ := Overlay.adopts_addressed env o info ha
    rw [ha, hp] at hl
    simp only [if_true] at hl
    refine ⟨true, { o.afterLoad info with
        _cursor_event := some p
        _in_frame_events := (o.afterLoad info)._in_frame_events |||
          cfg.IN_FRAME_EVENT_SET_CURSOR }, ?_, ?_, ?_, ?_, ?_⟩
    · simp only [Overlay.SetCursor, hl]
    · constructor
      · intro hb; exact Bool.noConfusion hb
      · rintro ⟨o2, h2⟩
        rw [hl] at h2
        simp at h2
    · constructor
      · intro hb; exact Bool.noConfusion hb
      · intro hc
        rw [hcond.2 hc] at ha
        exact Bool.noConfusion ha
    · intro hb; exact Bool.noConfusion hb
    · intro _
      refine ⟨p, _, hl, rfl, ?_, ?_, ?_⟩
      · exact maskHas_or_self _ _
      · intro i hi
        simpa using testBit_or_two_pow_of_ne o._in_frame_events cfg.setCursorBit i hi
      · simp

theorem C6_SetCursor_outcome_witness :
    ((⟨.CURSOR_TYPE_OVERLAY, 2, 0, 32⟩ : CursorInfo).type = .CURSOR_TYPE_OVERLAY →
        (⟨.CURSOR_TYPE_OVERLAY, 2, 0, 32⟩ : CursorInfo).id < overlay2._cursors.length) ∧
    (∃ o1, overlay2.SetCursor cfg0 envZero ⟨.CURSOR_TYPE_OVERLAY, 2, 0, 32⟩ = some (true, o1)) ∧
    ∃ b o1, overlay2.SetCursor cfg0 envZero ⟨.CURSOR_TYPE_OVERLAY, 2, 0, 32⟩ = some (b, o1) ∧
      (b = false ↔
        ∃ o2, overlay2._LoadCursor envZero ⟨.CURSOR_TYPE_OVERLAY, 2, 0, 32⟩ = some (none, o2)) :=
  ⟨fun _ => by decide, ⟨_, rfl⟩,
    (C6_SetCursor_outcome cfg0 envZero overlay2 ⟨.CURSOR_TYPE_OVERLAY, 2, 0, 32⟩
      (fun _ => by decide)).imp fun _ hb => hb.imp fun _ ho => ⟨ho.1, ho.2.1⟩⟩


/-! ## `UninstallCursor` -/

/-- C7: for an id inside the table, `UninstallCursor(id)` on an empty slot
returns false and leaves the overlay (the table and every cursor object) as
it was; on an occupied slot it returns true, the cursor of the slot is shut
down, the slot is empty afterwards, every other slot and every other cursor
object is unchanged.  The lifecycle flag plays no part. -/
theorem C7_UninstallCursor (o : Overlay) (id : CursorId) (hid : id < o._cursors.length) :
    (o._cursors[id]? = some none → o.UninstallCursor id = some (false, o)) ∧
    (∀ p, o._cursors[id]? = some (some p) →
      ∃ o1, o.UninstallCursor id = some (true, o1) ∧
        o1.deref p = (o.deref p).Shutdown ∧
        (o1.deref p).initialized = false ∧
        o1._cursors[id]? = some none ∧
        o1._cursors.length = o._cursors.length ∧
        (∀ j, j ≠ id → o1._cursors[j]? = o._cursors[j]?) ∧
        (∀ q, q ≠ p → o1.deref q = o.deref q)) := by
  constructor
  · intro h
    simp only [Overlay.UninstallCursor, h]
  · intro p h
    refine ⟨{ o.store p (o.deref p).Shutdown with
        _cursors := (o.store p (o.deref p).Shutdown)._cursors.set id none }, ?_, ?_, ?_, ?_, ?_, ?_, ?_⟩
    · simp only [Overlay.UninstallCursor, h]
    · cases p <;> simp [Overlay.store, Overlay.deref]
    · cases p <;> simp [Overlay.store, Overlay.deref, CursorObj.Shutdown]
    · simp [List.getElem?_set, hid]
    · simp
    · intro j hj
      simp [List.getElem?_set, Ne.symm hj]
    · intro q hq
      cases p <;> cases q <;> simp_all [Overlay.store, Overlay.deref]

theorem C7_UninstallCursor_witness :
    2 < overlay2._cursors.length ∧ 3 < overlay2._cursors.length ∧
    overlay2.UninstallCursor 3 = some (false, overlay2) ∧
    ∃ o1, overlay2.UninstallCursor 2 = some (true, o1) ∧
      (o1.deref (.ext 5)).initialized = false ∧ o1._cursors[2]? = some none :=
  ⟨by decide, by decide,
    (C7_UninstallCursor overlay2 3 (by decide)).1 (by decide),
    ((C7_UninstallCursor overlay2 2 (by decide)).2 (.ext 5) (by decide)).imp
      fun _ ho => ⟨ho.1, ho.2.2.1, ho.2.2.2.1⟩⟩

/-! ## The pre-frame drain -/

@[simp] theorem Overlay.resizeCursors_cursors (r : AspectRatio) (l : List (Option CursorPtr))
    (o : Overlay) : (Overlay.resizeCursors r l o)._cursors = o._cursors := by
  induction l generalizing o with
  | nil => rfl
  | cons x rest ih => cases x <;> simp [Overlay.resizeCursors, ih]

@[simp] theorem Overlay.resizeCursors_window (r : AspectRatio) (l : List (Option CursorPtr))
    (o : Overlay) : (Overlay.resizeCursors r l o)._window = o._window := by
  induction l generalizing o with
  | nil => rfl
  | cons x rest ih => cases x <;> simp [Overlay.resizeCursors, ih]

@[simp] theorem Overlay.resizeCursors_text_popup (r : AspectRatio) (l : List (Option CursorPtr))
    (o : Overlay) : (Overlay.resizeCursors r l o)._text_popup = o._text_popup := by
  induction l generalizing o with
  | nil => rfl
  | cons x rest ih => cases x <;> simp [Overlay.resizeCursors, ih]

@[simp] theorem Overlay.resizeCursors_render_context (r : AspectRatio)
    (l : List (Option CursorPtr)) (o : Overlay) :
    (Overlay.resizeCursors r l o)._render_context = o._render_context := by
  induction l generalizing o with
  | nil => rfl
  | cons x rest ih => cases x <;> simp [Overlay.resizeCursors, ih]

@[simp] theorem Overlay.resizeCursors_pre_frame_events (r : AspectRatio)
    (l : List (Option CursorPtr)) (o : Overlay) :
    (Overlay.resizeCursors r l o)._pre_frame_events = o._pre_frame_events := by
  induction l generalizing o with
  | nil => rfl
  | cons x rest ih => cases x <;> simp [Overlay.resizeCursors, ih]

/-- The loop over the table sets the aspect ratio of the cursors in the
list and touches no other cursor object. -/
theorem Overlay.resizeCursors_deref (r : AspectRatio) (l : List (Option CursorPtr))
    (o : Overlay) (p : CursorPtr) :
    (Overlay.resizeCursors r l o).deref p =
      if some p ∈ l then (o.deref p).SetAspectRatio r else o.deref p := by
  induction l generalizing o with
  | nil => simp [Overlay.resizeCursors]
  | cons x rest ih =>
    cases x with
    | none => simp [Overlay.resizeCursors, ih]
    | some c =>
      simp only [Overlay.resizeCursors, ih, List.mem_cons, Option.some.injEq]
      by_cases hpc : p = c
      · subst hpc
        simp [CursorObj.SetAspectRatio]
      · rw [Overlay.deref_store_of_ne _ _ _ _ hpc]
        simp [hpc]

theorem Overlay._ProcessPreFrameEvents_of_resize (cfg : Config) (env : Env) (o : Overlay)
    (h : maskHas o._pre_frame_events cfg.PRE_FRAME_EVENT_RESIZE = true) :
    o._ProcessPreFrameEvents cfg env =
      { o._OnFrameEventResize env o._resize_event with _pre_frame_events := 0 } := by
  have hne : o._pre_frame_events ≠ 0 := by
    intro h0
    rw [h0] at h
    simp [maskHas] at h
  simp [Overlay._ProcessPreFrameEvents, hne, h]

/-- C8: when a resize event is pending, after `_ProcessPreFrameEvents` the
window is the window after `SetSize` with the pending size, and the basic
cursor, every cursor in the cursor table and the text popup all hold the
aspect ratio of that window.  The table itself is unchanged, a cursor object
that is neither the basic cursor nor in the table is untouched, and of the
cursors in the table nothing but the aspect ratio changes. -/
theorem C8_resize_aspect_ratio (cfg : Config) (env : Env) (o : Overlay)
    (h : maskHas o._pre_frame_events cfg.PRE_FRAME_EVENT_RESIZE = true) :
    (o._ProcessPreFrameEvents cfg env)._window = env.Window_SetSize o._window o._resize_event ∧
    (o._ProcessPreFrameEvents cfg env)._basic_cursor.aspect_ratio =
      env.Window_GetAspectRatio (env.Window_SetSize o._window o._resize_event) ∧
    (∀ p, some p ∈ o._cursors →
      ((o._ProcessPreFrameEvents cfg env).deref p).aspect_ratio =
        env.Window_GetAspectRatio (env.Window_SetSize o._window o._resize_event)) ∧
    (o._ProcessPreFrameEvents cfg env)._text_popup.aspect_ratio =
      env.Window_GetAspectRatio (env.Window_SetSize o._window o._resize_event) ∧
    (o._ProcessPreFrameEvents cfg env)._cursors = o._cursors ∧
    (∀ p, p ≠ .basic → some p ∉ o._cursors →
      (o._ProcessPreFrameEvents cfg env).deref p = o.deref p) ∧
    (∀ p, ((o._ProcessPreFrameEvents cfg env).deref p).initialized = (o.deref p).initialized ∧
      ((o._ProcessPreFrameEvents cfg env).deref p).variant = (o.deref p).variant) := by
  rw [Overlay._ProcessPreFrameEvents_of_resize cfg env o h]
  have hderef : ∀ p, ({ o._OnFrameEventResize env o._resize_event with
      _pre_frame_events := 0 } : Overlay).deref p =
      (Overlay.resizeCursors
        (env.Window_GetAspectRatio (env.Window_SetSize o._window o._resize_event)) o._cursors
        { o with
          _window := env.Window_SetSize o._window o._resize_event
          _render_context :=
            o._render_context.Resize (env.Window_SetSize o._window o._resize_event).size
          _basic_cursor := o._basic_cursor.SetAspectRatio
            (env.Window_GetAspectRatio (env.Window_SetSize o._window o._resize_event)) }).deref
        p := by
    intro p
    cases p <;> rfl
  refine ⟨?_, ?_, ?_, ?_, ?_, ?_, ?_⟩
  · simp [Overlay._OnFrameEventResize]
  · have := hderef .basic
    rw [Overlay.resizeCursors_deref] at this
    have h2 : ({ o._OnFrameEventResize env o._resize_event with
        _pre_frame_events := 0 } : Overlay)._basic_cursor =
        ({ o._OnFrameEventResize env o._resize_event with
          _pre_frame_events := 0 } : Overlay).deref .basic := rfl
    rw [h2, this]
    split <;> simp [Overlay.deref, CursorObj.SetAspectRatio]
  · intro p hp
    rw [hderef p, Overlay.resizeCursors_deref, if_pos hp]
    simp [CursorObj.SetAspectRatio]
  · simp [Overlay._OnFrameEventResize, TextPopup.SetAspectRatio]
  · simp [Overlay._OnFrameEventResize]
  · intro p hp hnot
    rw [hderef p, Overlay.resizeCursors_deref, if_neg hnot]
    cases p with
    | basic => exact absurd rfl hp
    | ext a => rfl
  · intro p
    rw [hderef p, Overlay.resizeCursors_deref]
    cases p <;> split <;> simp [Overlay.deref, CursorObj.SetAspectRatio]

theorem C8_resize_aspect_ratio_witness :
    maskHas (overlay2._OnDisplayChange cfg0 800 600)._pre_frame_events
      cfg0.PRE_FRAME_EVENT_RESIZE = true ∧
    (((overlay2._OnDisplayChange cfg0 800 600)._ProcessPreFrameEvents cfg0 envAll).deref
      (.ext 5)).aspect_ratio = 800 ∧
    ((overlay2._OnDisplayChange cfg0 800 600)._ProcessPreFrameEvents cfg0 envAll)._text_popup.aspect_ratio
      = 800 :=
  ⟨by decide,
    (C8_resize_aspect_ratio cfg0 envAll (overlay2._OnDisplayChange cfg0 800 600)
      (by decide)).2.2.1 (.ext 5) (by decide),
    (C8_resize_aspect_ratio cfg0 envAll (overlay2._OnDisplayChange cfg0 800 600)
      (by decide)).2.2.2.1⟩


/-! ## Display changes -/

theorem ULongToLong_of_lt (n : Nat) (h : n < 2 ^ 31) : ULongToLong n = (n : Int) := by
  have h1 : n % 2 ^ 32 = n := Nat.mod_eq_of_lt (by omega)
  unfold ULongToLong
  rw [h1, if_pos h]

theorem Overlay.deliver_append (cfg : Config) (o : Overlay) (l1 l2 : List (Nat × Nat)) :
    o.deliver cfg (l1 ++ l2) = (o.deliver cfg l1).deliver cfg l2 := by
  induction l1 generalizing o with
  | nil => rfl
  | cons x rest ih => exact ih (o._OnDisplayChange cfg x.1 x.2)

/-- Display-change notifications write the resize event and the pre-frame
mask and nothing else. -/
theorem Overlay.deliver_frame (cfg : Config) (o : Overlay) (l : List (Nat × Nat)) :
    o.deliver cfg l = { o with
      _resize_event := (o.deliver cfg l)._resize_event
      _pre_frame_events := (o.deliver cfg l)._pre_frame_events } := by
  induction l generalizing o with
  | nil => rfl
  | cons x rest ih =>
    simp only [Overlay.deliver]
    rw [ih]
    rfl

/-- C9: after a non-empty run of display-change notifications that ends with
`(w, h)` (both below `2 ^ 31`, as every `Long` size is) and has no pre-frame
drain inside, the pending size is `(w, h)`; the next `_ProcessPreFrameEvents`
does what one `_OnFrameEventResize` with `(w, h)` does and clears the mask:
the window is the old window after `SetSize (w, h)`, the graphics surface was
resized exactly once, the pre-frame mask is zero, and a further drain with no
new notification changes nothing. -/
theorem C9_display_change_last_wins (cfg : Config) (env : Env) (o : Overlay)
    (l : List (Nat × Nat)) (w h : Nat) (hw : w < 2 ^ 31) (hh : h < 2 ^ 31) :
    (o.deliver cfg (l ++ [(w, h)]))._resize_event = ⟨(w : Int), (h : Int)⟩ ∧
    (o.deliver cfg (l ++ [(w, h)]))._ProcessPreFrameEvents cfg env =
      { (o.deliver cfg (l ++ [(w, h)]))._OnFrameEventResize env ⟨(w : Int), (h : Int)⟩ with
        _pre_frame_events := 0 } ∧
    ((o.deliver cfg (l ++ [(w, h)]))._ProcessPreFrameEvents cfg env)._window =
      env.Window_SetSize o._window ⟨(w : Int), (h : Int)⟩ ∧
    ((o.deliver cfg (l ++ [(w, h)]))._ProcessPreFrameEvents cfg env)._render_context.resize_count =
      o._render_context.resize_count + 1 ∧
    ((o.deliver cfg (l ++ [(w, h)]))._ProcessPreFrameEvents cfg env)._pre_frame_events = 0 ∧
    ((o.deliver cfg (l ++ [(w, h)]))._ProcessPreFrameEvents cfg env)._ProcessPreFrameEvents cfg env =
      (o.deliver cfg (l ++ [(w, h)]))._ProcessPreFrameEvents cfg env := by
  have hev : (o.deliver cfg (l ++ [(w, h)]))._resize_event = ⟨(w : Int), (h : Int)⟩ := by
    rw [Overlay.deliver_append]
    simp only [Overlay.deliver, Overlay._OnDisplayChange, ULongToLong_of_lt w hw,
      ULongToLong_of_lt h hh]
  have hmask : maskHas (o.deliver cfg (l ++ [(w, h)]))._pre_frame_events
      cfg.PRE_FRAME_EVENT_RESIZE = true := by
    rw [Overlay.deliver_append]
    exact maskHas_or_self _ _
  have hwin : (o.deliver cfg (l ++ [(w, h)]))._window = o._window := by
    rw [Overlay.deliver_frame]
  have hrc : (o.deliver cfg (l ++ [(w, h)]))._render_context = o._render_context := by
    rw [Overlay.deliver_frame]
  have hdrain := Overlay._ProcessPreFrameEvents_of_resize cfg env _ hmask
  rw [hev] at hdrain
  refine ⟨hev, hdrain, ?_, ?_, ?_, ?_⟩
  · rw [hdrain]
    simp [Overlay._OnFrameEventResize, hwin]
  · rw [hdrain]
    simp [Overlay._OnFrameEventResize, RenderContext.Resize, hrc]
  · rw [hdrain]
  · rw [hdrain]
    simp [Overlay._ProcessPreFrameEvents]

theorem C9_display_change_last_wins_witness :
    800 < 2 ^ 31 ∧ 600 < 2 ^ 31 ∧
    (overlay0.deliver cfg0 ([(640, 480), (1024, 768)] ++ [(800, 600)]))._resize_event
      = ⟨800, 600⟩ ∧
    ((overlay0.deliver cfg0 ([(640, 480), (1024, 768)] ++
      [(800, 600)]))._ProcessPreFrameEvents cfg0 envAll)._render_context.resize_count = 1 :=
  ⟨by decide, by decide,
    (C9_display_change_last_wins cfg0 envAll overlay0 [(640, 480), (1024, 768)] 800 600
      (by decide) (by decide)).1,
    (C9_display_change_last_wins cfg0 envAll overlay0 [(640, 480), (1024, 768)] 800 600
      (by decide) (by decide)).2.2.2.1⟩

/-! ## The message timeout -/

/-- C10: when the hovered window has a screen rectangle, `_OnFrameEventMessage`
passes to the text popup, for a message of length `n`, the timeout
`n * 40 + 1000` computed modulo `2 ^ 32`; that is `n * 40 + 1000` itself
whenever this is below `2 ^ 32`, and 1480 for a message of 12 characters. -/
theorem C10_message_timeout (env : Env) (o : Overlay) (message : List Char) (rect : RECT)
    (hrect : env.GetWindowRect o._hover_hwnd = some rect) :
    (o._OnFrameEventMessage env message)._text_popup.timeout =
      (message.length * 40 + 1000) % 2 ^ 32 ∧
    (message.length * 40 + 1000 < 2 ^ 32 →
      (o._OnFrameEventMessage env message)._text_popup.timeout = message.length * 40 + 1000) ∧
    (message.length = 12 → (o._OnFrameEventMessage env message)._text_popup.timeout = 1480) ∧
    (o._OnFrameEventMessage env message)._text_popup.text = message ∧
    (o._OnFrameEventMessage env message)._text_popup.active = true := by
  have ht : (o._OnFrameEventMessage env message)._text_popup.timeout =
      (message.length * 40 + 1000) % 2 ^ 32 := by
    simp [Overlay._OnFrameEventMessage, hrect, TextPopup.SetText,
      MESSAGE_TIMEOUT_PER_CHARACTER, ULONG_MOD]
  refine ⟨ht, ?_, ?_, ?_, ?_⟩
  · intro hlt
    rw [ht, Nat.mod_eq_of_lt hlt]
  · intro h12
    rw [ht, h12]
    rfl
  · simp [Overlay._OnFrameEventMessage, hrect, TextPopup.SetText]
  · simp [Overlay._OnFrameEventMessage, hrect, TextPopup.SetText]

theorem C10_message_timeout_witness :
    envZero.GetWindowRect ({ overlay0 with _hover_hwnd := 7 } : Overlay)._hover_hwnd
      = some ⟨0, 0, 640, 480⟩ ∧
    (({ overlay0 with _hover_hwnd := 7 } : Overlay)._OnFrameEventMessage envZero
      "Hello, world".toList)._text_popup.timeout = 1480 :=
  ⟨rfl, (C10_message_timeout envZero { overlay0 with _hover_hwnd := 7 } "Hello, world".toList
    ⟨0, 0, 640, 480⟩ rfl).2.2.1 (by decide)⟩


/-! ## The cyclic search -/

theorem uptoFirst_isPrefix {α : Type} (p : α → Bool) (l : List α) : uptoFirst p l <+: l := by
  induction l with
  | nil => exact List.prefix_refl _
  | cons x xs ih =>
    unfold uptoFirst
    split
    · exact ⟨xs, rfl⟩
    · exact (List.prefix_cons_inj x).2 ih

theorem uptoFirst_of_find_none {α : Type} (p : α → Bool) (l : List α)
    (h : l.find? p = none) : uptoFirst p l = l := by
  induction l with
  | nil => rfl
  | cons x xs ih =>
    cases hx : p x with
    | true => simp [List.find?, hx] at h
    | false =>
      simp only [List.find?, hx] at h
      simp [uptoFirst, hx, ih h]

theorem uptoFirst_of_find_some {α : Type} (p : α → Bool) (l : List α) (q : α)
    (h : l.find? p = some q) :
    ∃ pre post, l = pre ++ q :: post ∧ uptoFirst p l = pre ++ [q] ∧
      (∀ x ∈ pre, p x = false) ∧ p q = true := by
  induction l with
  | nil => simp at h
  | cons x xs ih =>
    cases hx : p x with
    | true =>
      simp only [List.find?, hx, Option.some.injEq] at h
      subst h
      exact ⟨[], xs, rfl, by simp [uptoFirst, hx], by simp, hx⟩
    | false =>
      simp only [List.find?, hx] at h
      obtain ⟨pre, post, hl, hu, hpre, hq⟩ := ih h
      refine ⟨x :: pre, post, by rw [hl]; rfl, by simp [uptoFirst, hx, hu], ?_, hq⟩
      intro y hy
      rcases List.mem_cons.1 hy with rfl | hy
      · exact hx
      · exact hpre y hy

theorem uptoFirst_append_of_find_some {α : Type} (p : α → Bool) (l1 l2 : List α) (q : α)
    (h : l1.find? p = some q) : uptoFirst p (l1 ++ l2) = uptoFirst p l1 := by
  induction l1 with
  | nil => simp at h
  | cons x xs ih =>
    cases hx : p x with
    | true => simp [uptoFirst, hx]
    | false =>
      simp only [List.find?, hx] at h
      simp [uptoFirst, hx, ih h]

theorem uptoFirst_append_of_find_none {α : Type} (p : α → Bool) (l1 l2 : List α)
    (h : l1.find? p = none) : uptoFirst p (l1 ++ l2) = l1 ++ uptoFirst p l2 := by
  induction l1 with
  | nil => rfl
  | cons x xs ih =>
    cases hx : p x with
    | true => simp [List.find?, hx] at h
    | false =>
      simp only [List.find?, hx] at h
      simp [uptoFirst, hx, ih h]

theorem CursorInfo.withPair_congr (a b : CursorInfo) (ht : a.type = b.type)
    (hs : a.size = b.size) : a.withPair = b.withPair := by
  funext q
  simp only [CursorInfo.withPair, ht, hs]

theorem Overlay.searchResult_congr (env : Env) (o : Overlay) (a b fb : CursorInfo)
    (l : List (CursorId × CursorVariation)) (ht : a.type = b.type) (hs : a.size = b.size) :
    o.searchResult env a fb l = o.searchResult env b fb l := by
  unfold Overlay.searchResult
  rw [CursorInfo.withPair_congr a b ht hs]

theorem Overlay.searchResult_cons_true (env : Env) (o : Overlay) (info fb : CursorInfo)
    (q : CursorId × CursorVariation) (l : List (CursorId × CursorVariation))
    (h : o.adopts env (info.withPair q) = true) :
    o.searchResult env info fb (q :: l) =
      ⟨o.addressed (info.withPair q), info.withPair q, o.afterLoad (info.withPair q), [q]⟩ := by
  simp [Overlay.searchResult, List.find?, uptoFirst, h]

theorem Overlay.searchResult_cons_false (env : Env) (o : Overlay) (info fb : CursorInfo)
    (q : CursorId × CursorVariation) (l : List (CursorId × CursorVariation))
    (h : o.adopts env (info.withPair q) = false) :
    o.searchResult env info fb (q :: l) =
      { o.searchResult env info fb l with probes := q :: (o.searchResult env info fb l).probes } := by
  simp only [Overlay.searchResult, List.find?, uptoFirst, h]
  cases l.find? (fun q => o.adopts env (info.withPair q)) <;> simp

theorem Overlay.searchResult_append_of_find_some (env : Env) (o : Overlay)
    (info fb fb1 : CursorInfo) (l1 l2 : List (CursorId × CursorVariation))
    (q : CursorId × CursorVariation)
    (h : l1.find? (fun q => o.adopts env (info.withPair q)) = some q) :
    o.searchResult env info fb (l1 ++ l2) = o.searchResult env info fb1 l1 := by
  simp only [Overlay.searchResult, List.find?_append, h, Option.or_some,
    uptoFirst_append_of_find_some _ l1 l2 q h]

theorem Overlay.searchResult_append_of_find_none (env : Env) (o : Overlay)
    (info fb : CursorInfo) (l1 l2 : List (CursorId × CursorVariation))
    (h : l1.find? (fun q => o.adopts env (info.withPair q)) = none) :
    o.searchResult env info fb (l1 ++ l2) =
      { o.searchResult env info fb l2 with
        probes := l1 ++ (o.searchResult env info fb l2).probes } := by
  simp only [Overlay.searchResult, List.find?_append, h, Option.none_or,
    uptoFirst_append_of_find_none _ l1 l2 h]
  cases l2.find? (fun q => o.adopts env (info.withPair q)) <;> simp

theorem probeRow_succ (cfg : Config) (id v n : Nat) :
    probeRow cfg id v (n + 1) =
      (id, v % cfg.CURSOR_VARIATION_COUNT) ::
        probeRow cfg id ((v + 1) % cfg.CURSOR_VARIATION_COUNT) n := by
  unfold probeRow
  rw [List.range_succ_eq_map, List.map_cons, List.map_map]
  refine congrArg₂ _ rfl (List.map_congr_left ?_)
  intro j _
  simp only [Function.comp, Nat.mod_add_mod, Nat.succ_eq_add_one]
  congr 2
  omega

/-- The inner loop of `_LoadCursorIterated` as a search through one row. -/
theorem Overlay.variationLoop_eq (cfg : Config) (env : Env) (o : Overlay) :
    ∀ (n : Nat) (info : CursorInfo),
      (info.type = .CURSOR_TYPE_OVERLAY → info.id < o._cursors.length) →
      info.variation < cfg.CURSOR_VARIATION_COUNT →
      Overlay.variationLoop cfg env n o info =
        some (o.searchResult env info
          { info with variation := (info.variation + n) % cfg.CURSOR_VARIATION_COUNT }
          (probeRow cfg info.id info.variation n))
  | 0, info, _, hv => by
    simp [Overlay.variationLoop, probeRow, Overlay.searchResult, Nat.mod_eq_of_lt hv]
  | n + 1, info, hs, hv => by
    have hmod : info.variation % cfg.CURSOR_VARIATION_COUNT = info.variation :=
      Nat.mod_eq_of_lt hv
    have hpos : 0 < cfg.CURSOR_VARIATION_COUNT := Nat.lt_of_le_of_lt (Nat.zero_le _) hv
    rw [probeRow_succ, hmod]
    unfold Overlay.variationLoop
    rw [Overlay._LoadCursor_eq env o info hs]
    cases ha : o.adopts env info with
    | true =>
      obtain ⟨p, hp⟩ := Overlay.adopts_addressed env o info ha
      have hw : info.withPair (info.id, info.variation) = info := rfl
      rw [Overlay.searchResult_cons_true env o info _ (info.id, info.variation) _ ha, hw]
      simp only [if_true, hp]
    | false =>
      simp only [Bool.false_eq_true, if_false]
      rw [Overlay.variationLoop_eq cfg env o n
        { info with variation := (info.variation + 1) % cfg.CURSOR_VARIATION_COUNT } hs
        (Nat.mod_lt _ hpos)]
      rw [Overlay.searchResult_cons_false env o info _ (info.id, info.variation) _ ha]
      rw [Overlay.searchResult_congr env o
        { info with variation := (info.variation + 1) % cfg.CURSOR_VARIATION_COUNT } info _ _
        rfl rfl]
      have hfb : ((info.variation + 1) % cfg.CURSOR_VARIATION_COUNT + n) %
          cfg.CURSOR_VARIATION_COUNT =
          (info.variation + (n + 1)) % cfg.CURSOR_VARIATION_COUNT := by
        rw [Nat.mod_add_mod]
        congr 1
        omega
      dsimp only
      rw [hfb]


/-- The outer loop of `_LoadCursorIterated` as a search through the rows. -/
theorem Overlay.idLoop_eq (cfg : Config) (env : Env) (o : Overlay)
    (hlen : o._cursors.length = cfg.CURSOR_ID_COUNT) :
    ∀ (n : Nat) (info : CursorInfo),
      info.id < cfg.CURSOR_ID_COUNT → info.variation < cfg.CURSOR_VARIATION_COUNT →
      Overlay.idLoop cfg env n o info =
        some (o.searchResult env info
          (if n = 0 then info
            else { info with id := (info.id + n) % cfg.CURSOR_ID_COUNT, variation := 0 })
          (probeRows cfg n info.id info.variation))
  | 0, info, _, _ => by
    simp [Overlay.idLoop, probeRows, Overlay.searchResult]
  | n + 1, info, hi, hv => by
    have hs : info.type = .CURSOR_TYPE_OVERLAY → info.id < o._cursors.length :=
      fun _ => hlen ▸ hi
    have hipos : 0 < cfg.CURSOR_ID_COUNT := Nat.lt_of_le_of_lt (Nat.zero_le _) hi
    have hvpos : 0 < cfg.CURSOR_VARIATION_COUNT := Nat.lt_of_le_of_lt (Nat.zero_le _) hv
    unfold Overlay.idLoop
    rw [Overlay.variationLoop_eq cfg env o cfg.CURSOR_VARIATION_COUNT info hs hv]
    simp only [probeRows]
    cases hf : (probeRow cfg info.id info.variation cfg.CURSOR_VARIATION_COUNT).find?
        (fun q => o.adopts env (info.withPair q)) with
    | some q =>
      have hq : o.adopts env (info.withPair q) = true := (List.find?_eq_some.1 hf).1
      obtain ⟨c, hc⟩ := Overlay.adopts_addressed env o _ hq
      rw [Overlay.searchResult_append_of_find_some env o info _
        { info with variation :=
            (info.variation + cfg.CURSOR_VARIATION_COUNT) % cfg.CURSOR_VARIATION_COUNT }
        _ _ q hf]
      simp only [Overlay.searchResult, hf, hc]
    | none =>
      rw [Overlay.searchResult_append_of_find_none env o info _ _ _ hf]
      have hrow : o.searchResult env info
          { info with variation :=
              (info.variation + cfg.CURSOR_VARIATION_COUNT) % cfg.CURSOR_VARIATION_COUNT }
          (probeRow cfg info.id info.variation cfg.CURSOR_VARIATION_COUNT) =
          ⟨none, { info with variation :=
              (info.variation + cfg.CURSOR_VARIATION_COUNT) % cfg.CURSOR_VARIATION_COUNT },
            o, probeRow cfg info.id info.variation cfg.CURSOR_VARIATION_COUNT⟩ := by
        simp only [Overlay.searchResult, hf]
      rw [hrow]
      dsimp only
      rw [Overlay.idLoop_eq cfg env o hlen n _ (Nat.mod_lt _ hipos) hvpos]
      dsimp only
      rw [Overlay.searchResult_congr env o
        { type := info.type, id := (info.id + 1) % cfg.CURSOR_ID_COUNT, variation := 0,
          size := info.size } info _ _ rfl rfl]
      have hfb : ((info.id + 1) % cfg.CURSOR_ID_COUNT + n) % cfg.CURSOR_ID_COUNT =
          (info.id + (n + 1)) % cfg.CURSOR_ID_COUNT := by
        rw [Nat.mod_add_mod]
        congr 1
        omega
      by_cases hn : n = 0
      · subst hn
        simp
      · simp only [hn, if_false, hfb, Nat.succ_ne_zero]

theorem probeRow_length (cfg : Config) (id v n : Nat) : (probeRow cfg id v n).length = n := by
  simp [probeRow]

theorem probeRows_length (cfg : Config) (n id v : Nat) :
    (probeRows cfg n id v).length = n * cfg.CURSOR_VARIATION_COUNT := by
  induction n generalizing id v with
  | zero => simp [probeRows]
  | succ n ih =>
    simp only [probeRows, List.length_append, probeRow_length, ih]
    rw [Nat.succ_mul]
    omega

/-- The rows of the outer loop in closed form. -/
theorem probeRows_eq_flatMap (cfg : Config) (n id v : Nat) (hid : id < cfg.CURSOR_ID_COUNT) :
    probeRows cfg n id v =
      (List.range n).flatMap (fun k =>
        probeRow cfg ((id + k) % cfg.CURSOR_ID_COUNT) (if k = 0 then v else 0)
          cfg.CURSOR_VARIATION_COUNT) := by
  induction n generalizing id v with
  | zero => simp [probeRows]
  | succ n ih =>
    have hpos : 0 < cfg.CURSOR_ID_COUNT := Nat.lt_of_le_of_lt (Nat.zero_le _) hid
    rw [List.range_succ_eq_map, List.flatMap_cons, List.flatMap_map]
    simp only [probeRows]
    rw [ih _ 0 (Nat.mod_lt _ hpos)]
    simp only [Nat.add_zero, Nat.mod_eq_of_lt hid, if_true]
    refine congrArg₂ _ rfl (List.flatMap_congr ?_)
    intro k _
    simp only [Nat.succ_eq_add_one, Nat.mod_add_mod, Nat.succ_ne_zero, if_false, ite_self]
    congr 2
    omega

theorem probeOrder_eq_probeRows (cfg : Config) (id0 v0 : Nat)
    (hid : id0 < cfg.CURSOR_ID_COUNT) :
    probeOrder cfg id0 v0 = probeRows cfg cfg.CURSOR_ID_COUNT id0 v0 :=
  (probeRows_eq_flatMap cfg _ id0 v0 hid).symm


theorem add_mod_inj (m a j k : Nat) (hj : j < m) (hk : k < m)
    (h : (a + j) % m = (a + k) % m) : j = k :=
  Nat.ModEq.eq_of_lt_of_lt (Nat.ModEq.add_left_cancel' a h) hj hk

theorem exists_add_mod_eq (m a b : Nat) (ha : a < m) (hb : b < m) :
    ∃ k, k < m ∧ (a + k) % m = b := by
  by_cases hab : a ≤ b
  · refine ⟨b - a, by omega, ?_⟩
    have : a + (b - a) = b := by omega
    rw [this, Nat.mod_eq_of_lt hb]
  · refine ⟨b + m - a, by omega, ?_⟩
    have : a + (b + m - a) = b + m := by omega
    rw [this, Nat.add_mod_right, Nat.mod_eq_of_lt hb]

theorem mem_probeRow (cfg : Config) (id v n : Nat) (q : CursorId × CursorVariation) :
    q ∈ probeRow cfg id v n ↔ ∃ j, j < n ∧ q = (id, (v + j) % cfg.CURSOR_VARIATION_COUNT) := by
  simp only [probeRow, List.mem_map, List.mem_range]
  constructor
  · rintro ⟨j, hj, rfl⟩; exact ⟨j, hj, rfl⟩
  · rintro ⟨j, hj, rfl⟩; exact ⟨j, hj, rfl⟩

theorem probeRow_nodup (cfg : Config) (id v : Nat) :
    (probeRow cfg id v cfg.CURSOR_VARIATION_COUNT).Nodup := by
  unfold probeRow
  refine List.Nodup.map_on ?_ (List.nodup_range _)
  intro j hj k hk h
  exact add_mod_inj _ v j k (List.mem_range.1 hj) (List.mem_range.1 hk) (Prod.mk.inj h).2

theorem mem_probeOrder (cfg : Config) (id0 v0 : Nat) (q : CursorId × CursorVariation) :
    q ∈ probeOrder cfg id0 v0 ↔
      ∃ k, k < cfg.CURSOR_ID_COUNT ∧ ∃ j, j < cfg.CURSOR_VARIATION_COUNT ∧
        q = ((id0 + k) % cfg.CURSOR_ID_COUNT,
          ((if k = 0 then v0 else 0) + j) % cfg.CURSOR_VARIATION_COUNT) := by
  simp only [probeOrder, List.mem_flatMap, List.mem_range, mem_probeRow]

/-- The probing order holds no pair twice. -/
theorem probeOrder_nodup (cfg : Config) (id0 v0 : Nat) : (probeOrder cfg id0 v0).Nodup := by
  unfold probeOrder
  rw [List.nodup_flatMap]
  refine ⟨fun k _ => probeRow_nodup cfg _ _, ?_⟩
  refine List.Pairwise.imp_of_mem ?_ (List.pairwise_lt_range _)
  intro a b ha hb hlt q hqa hqb
  obtain ⟨j1, _, h1⟩ := (mem_probeRow cfg _ _ _ q).1 hqa
  obtain ⟨j2, _, h2⟩ := (mem_probeRow cfg _ _ _ q).1 hqb
  have hid : (id0 + a) % cfg.CURSOR_ID_COUNT = (id0 + b) % cfg.CURSOR_ID_COUNT := by
    have := h1.symm.trans h2
    exact (Prod.mk.inj this).1
  have := add_mod_inj _ id0 a b (List.mem_range.1 ha) (List.mem_range.1 hb) hid
  omega

/-- The probing order holds the pairs of the table and no other. -/
theorem mem_probeOrder_iff (cfg : Config) (id0 v0 : Nat) (hid : id0 < cfg.CURSOR_ID_COUNT)
    (hv : v0 < cfg.CURSOR_VARIATION_COUNT) (q : CursorId × CursorVariation) :
    q ∈ probeOrder cfg id0 v0 ↔
      q.1 < cfg.CURSOR_ID_COUNT ∧ q.2 < cfg.CURSOR_VARIATION_COUNT := by
  have hipos : 0 < cfg.CURSOR_ID_COUNT := Nat.lt_of_le_of_lt (Nat.zero_le _) hid
  have hvpos : 0 < cfg.CURSOR_VARIATION_COUNT := Nat.lt_of_le_of_lt (Nat.zero_le _) hv
  rw [mem_probeOrder]
  constructor
  · rintro ⟨k, _, j, _, rfl⟩
    exact ⟨Nat.mod_lt _ hipos, Nat.mod_lt _ hvpos⟩
  · rintro ⟨h1, h2⟩
    obtain ⟨k, hk, hke⟩ := exists_add_mod_eq _ id0 q.1 hid h1
    have hs : (if k = 0 then v0 else 0) < cfg.CURSOR_VARIATION_COUNT := by
      split
      · exact hv
      · exact hvpos
    obtain ⟨j, hj, hje⟩ := exists_add_mod_eq _ _ q.2 hs h2
    exact ⟨k, hk, j, hj, by rw [hke, hje]⟩

theorem probeOrder_length (cfg : Config) (id0 v0 : Nat) (hid : id0 < cfg.CURSOR_ID_COUNT) :
    (probeOrder cfg id0 v0).length = cfg.CURSOR_ID_COUNT * cfg.CURSOR_VARIATION_COUNT := by
  rw [probeOrder_eq_probeRows cfg id0 v0 hid, probeRows_length]

/-- The search of `_LoadCursorIterated` from an in-range request: the pairs of
`probeOrder` are probed in order in the unchanged overlay, up to the first
that is adopted. -/
theorem Overlay._LoadCursorIterated_eq (cfg : Config) (env : Env) (o : Overlay)
    (info : CursorInfo) (hlen : o._cursors.length = cfg.CURSOR_ID_COUNT)
    (hid : info.id < cfg.CURSOR_ID_COUNT) (hv : info.variation < cfg.CURSOR_VARIATION_COUNT) :
    o._LoadCursorIterated cfg env info =
      some (o.searchResult env info { info with variation := 0 }
        (probeOrder cfg info.id info.variation)) := by
  have hne : cfg.CURSOR_ID_COUNT ≠ 0 :=
    Nat.ne_of_gt (Nat.lt_of_le_of_lt (Nat.zero_le _) hid)
  unfold Overlay._LoadCursorIterated
  rw [Overlay.idLoop_eq cfg env o hlen _ info hid hv, probeOrder_eq_probeRows cfg _ _ hid]
  simp only [hne, if_false, Nat.add_mod_right, Nat.mod_eq_of_lt hid]

/-- Inside the table, `loads` is `adopts`. -/
theorem Overlay.loads_withPair (cfg : Config) (env : Env) (o : Overlay) (info : CursorInfo)
    (hlen : o._cursors.length = cfg.CURSOR_ID_COUNT) (q : CursorId × CursorVariation)
    (hq : q.1 < cfg.CURSOR_ID_COUNT) :
    o.loads env (info.withPair q) = o.adopts env (info.withPair q) :=
  Overlay.loads_eq_adopts env o _ (fun _ => hlen ▸ hq)


/-- C3: from a request inside the table, `_LoadCursorIterated` returns; the
pairs it probes with `_LoadCursor` are a prefix of the probing order and no
pair occurs twice among them; it returns no cursor exactly when no probe
succeeds, and then it made `CURSOR_ID_COUNT * CURSOR_VARIATION_COUNT` probes,
which are the pairs of the table, each once. -/
theorem C3_probes_distinct_and_exhaustive (cfg : Config) (env : Env) (o : Overlay)
    (info : CursorInfo) (hlen : o._cursors.length = cfg.CURSOR_ID_COUNT)
    (hid : info.id < cfg.CURSOR_ID_COUNT) (hv : info.variation < cfg.CURSOR_VARIATION_COUNT) :
    ∃ r, o._LoadCursorIterated cfg env info = some r ∧
      r.probes.Nodup ∧
      r.probes <+: probeOrder cfg info.id info.variation ∧
      (r.cursor = none ↔ ∀ q ∈ r.probes, o.loads env (info.withPair q) = false) ∧
      (r.cursor = none →
        r.probes.length = cfg.CURSOR_ID_COUNT * cfg.CURSOR_VARIATION_COUNT ∧
        ∀ q, q ∈ r.probes ↔ (q.1 < cfg.CURSOR_ID_COUNT ∧ q.2 < cfg.CURSOR_VARIATION_COUNT)) := by
  refine ⟨_, Overlay._LoadCursorIterated_eq cfg env o info hlen hid hv, ?_⟩
  have hloads : ∀ q ∈ probeOrder cfg info.id info.variation,
      o.loads env (info.withPair q) = o.adopts env (info.withPair q) := fun q hq =>
    Overlay.loads_withPair cfg env o info hlen q
      ((mem_probeOrder_iff cfg _ _ hid hv q).1 hq).1
  cases hf : (probeOrder cfg info.id info.variation).find?
      (fun q => o.adopts env (info.withPair q)) with
  | none =>
    simp only [Overlay.searchResult, hf]
    refine ⟨probeOrder_nodup cfg _ _, List.prefix_refl _, ?_, ?_⟩
    · refine ⟨fun _ q hq => ?_, fun _ => trivial⟩
      rw [hloads q hq]
      have := List.find?_eq_none.1 hf q hq
      simpa using this
    · intro _
      exact ⟨probeOrder_length cfg _ _ hid, mem_probeOrder_iff cfg _ _ hid hv⟩
  | some q =>
    obtain ⟨pre, post, hl, hu, _, hq⟩ := uptoFirst_of_find_some _ _ q hf
    obtain ⟨c, hc⟩ := Overlay.adopts_addressed env o _ hq
    have hpre := uptoFirst_isPrefix (fun q => o.adopts env (info.withPair q))
      (probeOrder cfg info.id info.variation)
    simp only [Overlay.searchResult, hf, hc]
    refine ⟨(probeOrder_nodup cfg _ _).sublist hpre.sublist, hpre, ?_, ?_⟩
    · constructor
      · intro h; exact Option.noConfusion h
      · intro h
        have hmem : q ∈ probeOrder cfg info.id info.variation := by rw [hl]; simp
        have hq2 := h q (by rw [hu]; simp)
        rw [hloads q hmem, hq] at hq2
        exact Bool.noConfusion hq2
    · intro h; exact Option.noConfusion h

theorem C3_probes_distinct_and_exhaustive_witness :
    overlay2._cursors.length = cfg0.CURSOR_ID_COUNT ∧
    (⟨.CURSOR_TYPE_OVERLAY, 2, 3, 32⟩ : CursorInfo).id < cfg0.CURSOR_ID_COUNT ∧
    (⟨.CURSOR_TYPE_OVERLAY, 2, 3, 32⟩ : CursorInfo).variation < cfg0.CURSOR_VARIATION_COUNT ∧
    ∃ r, overlay2._LoadCursorIterated cfg0 envNone ⟨.CURSOR_TYPE_OVERLAY, 2, 3, 32⟩ = some r ∧
      r.probes.Nodup :=
  ⟨by decide, by decide, by decide,
    (C3_probes_distinct_and_exhaustive cfg0 envNone overlay2 ⟨.CURSOR_TYPE_OVERLAY, 2, 3, 32⟩
      (by decide) (by decide) (by decide)).imp fun _ h => ⟨h.1, h.2.1⟩⟩

/-- A successful `SetCursorIterated` from a request inside the table, unfolded. -/
theorem Overlay.SetCursorIterated_true (cfg : Config) (env : Env) (o o1 : Overlay)
    (info info1 : CursorInfo) (hlen : o._cursors.length = cfg.CURSOR_ID_COUNT)
    (hid : info.id < cfg.CURSOR_ID_COUNT) (hv : info.variation < cfg.CURSOR_VARIATION_COUNT)
    (h : o.SetCursorIterated cfg env info = some (true, info1, o1)) :
    ∃ q c, (probeOrder cfg info.id info.variation).find?
        (fun q => o.adopts env (info.withPair q)) = some q ∧
      o.addressed (info.withPair q) = some c ∧ info1 = info.withPair q ∧
      o1 = { o.afterLoad (info.withPair q) with
        _cursor_event := some c
        _in_frame_events := o._in_frame_events ||| cfg.IN_FRAME_EVENT_SET_CURSOR } := by
  unfold Overlay.SetCursorIterated at h
  rw [Overlay._LoadCursorIterated_eq cfg env o info hlen hid hv] at h
  cases hf : (probeOrder cfg info.id info.variation).find?
      (fun q => o.adopts env (info.withPair q)) with
  | none => simp [Overlay.searchResult, hf] at h
  | some q =>
    have hq : o.adopts env (info.withPair q) = true := (List.find?_eq_some.1 hf).1
    obtain ⟨c, hc⟩ := Overlay.adopts_addressed env o _ hq
    simp only [Overlay.searchResult, hf, hc, Option.some.injEq, Prod.mk.injEq, true_and] at h
    refine ⟨q, c, rfl, hc, h.1.symm, ?_⟩
    rw [← h.2]
    simp


theorem probeRows_pos (cfg : Config) (n id v : Nat) (hn : 0 < n) :
    probeRows cfg n id v =
      probeRow cfg id v cfg.CURSOR_VARIATION_COUNT ++
        probeRows cfg (n - 1) ((id + 1) % cfg.CURSOR_ID_COUNT) 0 := by
  cases n with
  | zero => exact absurd hn (Nat.lt_irrefl 0)
  | succ m => rfl

/-- C4: when `SetCursorIterated` succeeds from a request inside the table,
the request after the call is the request before it with the winning pair,
that pair is the first in the probing order
`(id0, v0), (id0, v0+1), ..., (id0, v0-1), (id0+1, 0), (id0+1, 1), ...`
whose probe loads a cursor, and the pending cursor is the cursor that probe
returned.  In particular, with more than 2 ids and more than 3 variations and
a cursor in slot 2 that adopts variation 0 only, the search from
(id 2, variation 3) succeeds and leaves the request at (id 2, variation 0). -/
theorem C4_iterated_first_accepted :
    (∀ (cfg : Config) (env : Env) (o o1 : Overlay) (info info1 : CursorInfo),
      o._cursors.length = cfg.CURSOR_ID_COUNT →
      info.id < cfg.CURSOR_ID_COUNT → info.variation < cfg.CURSOR_VARIATION_COUNT →
      o.SetCursorIterated cfg env info = some (true, info1, o1) →
      ∃ pre post c o2,
        probeOrder cfg info.id info.variation = pre ++ (info1.id, info1.variation) :: post ∧
        (∀ q ∈ pre, o.loads env (info.withPair q) = false) ∧
        info1 = info.withPair (info1.id, info1.variation) ∧
        o._LoadCursor env info1 = some (some c, o2) ∧
        o1._cursor_event = some c) ∧
    (∀ (cfg : Config) (env : Env) (o : Overlay) (p : CursorPtr) (size : CursorSize),
      2 < cfg.CURSOR_ID_COUNT → 3 < cfg.CURSOR_VARIATION_COUNT →
      o._cursors.length = cfg.CURSOR_ID_COUNT →
      o._cursors[2]? = some (some p) →
      (∀ v, env.accepts p (o.deref p) 2 v size = decide (v = 0)) →
      ∃ o1, o.SetCursorIterated cfg env ⟨.CURSOR_TYPE_OVERLAY, 2, 3, size⟩ =
        some (true, ⟨.CURSOR_TYPE_OVERLAY, 2, 0, size⟩, o1)) := by
  constructor
  · intro cfg env o o1 info info1 hlen hid hv h
    obtain ⟨q, c, hf, hc, hinfo, ho1⟩ :=
      Overlay.SetCursorIterated_true cfg env o o1 info info1 hlen hid hv h
    obtain ⟨hq, pre, post, hl, hpre⟩ := List.find?_eq_some.1 hf
    have hq1 : (info1.id, info1.variation) = q := by rw [hinfo]; rfl
    have hmemq : q ∈ probeOrder cfg info.id info.variation := by rw [hl]; simp
    have hsafe : (info.withPair q).type = .CURSOR_TYPE_OVERLAY →
        (info.withPair q).id < o._cursors.length := fun _ =>
      hlen ▸ ((mem_probeOrder_iff cfg _ _ hid hv q).1 hmemq).1
    refine ⟨pre, post, c, o.afterLoad (info.withPair q), ?_, ?_, ?_, ?_, ?_⟩
    · rw [hq1]; exact hl
    · intro a ha
      have hmem : a ∈ probeOrder cfg info.id info.variation := by
        rw [hl]; exact List.mem_append_left _ ha
      rw [Overlay.loads_withPair cfg env o info hlen a
        ((mem_probeOrder_iff cfg _ _ hid hv a).1 hmem).1]
      simpa using hpre a ha
    · rw [hq1]; exact hinfo
    · have hq2 : o.adopts env (info.withPair q) = true := hq
      rw [hinfo, Overlay._LoadCursor_eq env o _ hsafe, hq2, hc]
      rfl
    · rw [ho1]
  · intro cfg env o p size hidc hvc hlen hslot hacc
    have hadopt : ∀ v, o.adopts env ⟨.CURSOR_TYPE_OVERLAY, 2, v, size⟩ = decide (v = 0) := by
      intro v
      simp only [Overlay.adopts, Overlay.addressed, hslot, Option.join]
      exact hacc v
    have haddr : ∀ v, o.addressed ⟨.CURSOR_TYPE_OVERLAY, 2, v, size⟩ = some p := by
      intro v
      simp [Overlay.addressed, hslot]
    have hrows : probeOrder cfg 2 3 =
        probeRow cfg 2 3 cfg.CURSOR_VARIATION_COUNT ++
          probeRows cfg (cfg.CURSOR_ID_COUNT - 1) ((2 + 1) % cfg.CURSOR_ID_COUNT) 0 := by
      rw [probeOrder_eq_probeRows cfg 2 3 hidc]
      exact probeRows_pos cfg _ 2 3 (Nat.lt_trans (by decide) hidc)
    have hmem0 : ((2, 0) : CursorId × CursorVariation) ∈
        probeRow cfg 2 3 cfg.CURSOR_VARIATION_COUNT := by
      rw [mem_probeRow]
      refine ⟨cfg.CURSOR_VARIATION_COUNT - 3, by omega, ?_⟩
      have : 3 + (cfg.CURSOR_VARIATION_COUNT - 3) = cfg.CURSOR_VARIATION_COUNT := by omega
      rw [this, Nat.mod_self]
    have hfind : (probeOrder cfg 2 3).find?
        (fun q => o.adopts env
          ((⟨.CURSOR_TYPE_OVERLAY, 2, 3, size⟩ : CursorInfo).withPair q)) = some (2, 0) := by
      rw [hrows, List.find?_append]
      cases hf0 : (probeRow cfg 2 3 cfg.CURSOR_VARIATION_COUNT).find?
          (fun q => o.adopts env
            ((⟨.CURSOR_TYPE_OVERLAY, 2, 3, size⟩ : CursorInfo).withPair q)) with
      | none =>
        have := List.find?_eq_none.1 hf0 (2, 0) hmem0
        have h0 := hadopt 0
        simp only [CursorInfo.withPair] at this
        rw [h0] at this
        simp at this
      | some q =>
        obtain ⟨hq, as, bs, hl, _⟩ := List.find?_eq_some.1 hf0
        have hqmem : q ∈ probeRow cfg 2 3 cfg.CURSOR_VARIATION_COUNT := by rw [hl]; simp
        obtain ⟨j, _, hj⟩ := (mem_probeRow cfg _ _ _ q).1 hqmem
        subst hj
        simp only [CursorInfo.withPair] at hq
        rw [hadopt] at hq
        have hz : (3 + j) % cfg.CURSOR_VARIATION_COUNT = 0 := of_decide_eq_true hq
        simp only [Option.or_some, hz]
    refine ⟨{ o.afterLoad ⟨.CURSOR_TYPE_OVERLAY, 2, 0, size⟩ with
      _cursor_event := some p
      _in_frame_events := (o.afterLoad ⟨.CURSOR_TYPE_OVERLAY, 2, 0, size⟩)._in_frame_events |||
        cfg.IN_FRAME_EVENT_SET_CURSOR }, ?_⟩
    unfold Overlay.SetCursorIterated
    rw [Overlay._LoadCursorIterated_eq cfg env o _ hlen hidc hvc]
    simp only [Overlay.searchResult, hfind]
    have ha0 := haddr 0
    simp only [CursorInfo.withPair]
    rw [ha0]

theorem C4_iterated_first_accepted_witness :
    ∃ o1, overlay2.SetCursorIterated cfg0 envZero ⟨.CURSOR_TYPE_OVERLAY, 2, 3, 32⟩ =
      some (true, ⟨.CURSOR_TYPE_OVERLAY, 2, 0, 32⟩, o1) :=
  C4_iterated_first_accepted.2 cfg0 envZero overlay2 (.ext 5) 32 (by decide) (by decide)
    (by decide) (by decide) (fun _ => rfl)

/-- C5, as stated, fails: in a fresh overlay whose basic cursor refuses every
pair, `SetCursorIterated` from (id 1, variation 3) returns false and hands
the request back with variation 0, not 3. -/
theorem C5_request_variation_reset_counterexample :
    (∀ i v, overlay0.loads envNone ⟨.CURSOR_TYPE_BASIC, i, v, 32⟩ = false) ∧
    ∃ info1 o1, overlay0.SetCursorIterated cfg0 envNone ⟨.CURSOR_TYPE_BASIC, 1, 3, 32⟩ =
        some (false, info1, o1) ∧
      info1.id = 1 ∧ info1.variation = 0 ∧ info1.variation ≠ 3 :=
  ⟨fun _ _ => rfl, _, _, rfl, rfl, rfl, by decide⟩

/-- C5 (amended): from a request inside the table, in an overlay in which no
pair of the table is accepted, `SetCursorIterated` returns false and leaves
the overlay as it was (in-frame mask, pending cursor and active cursor
included); the request comes back with the id and the type and size that were
passed in and with variation 0. -/
theorem C5_iterated_none_accepted (cfg : Config) (env : Env) (o : Overlay) (info : CursorInfo)
    (hlen : o._cursors.length = cfg.CURSOR_ID_COUNT)
    (hid : info.id < cfg.CURSOR_ID_COUNT) (hv : info.variation < cfg.CURSOR_VARIATION_COUNT)
    (hnone : ∀ i v, i < cfg.CURSOR_ID_COUNT → v < cfg.CURSOR_VARIATION_COUNT →
      o.loads env { info with id := i, variation := v } = false) :
    o.SetCursorIterated cfg env info = some (false, { info with variation := 0 }, o) := by
  have hf : (probeOrder cfg info.id info.variation).find?
      (fun q => o.adopts env (info.withPair q)) = none := by
    rw [List.find?_eq_none]
    intro q hq
    have hr := (mem_probeOrder_iff cfg _ _ hid hv q).1 hq
    have := hnone q.1 q.2 hr.1 hr.2
    rw [← Overlay.loads_withPair cfg env o info hlen q hr.1]
    simp only [CursorInfo.withPair]
    rw [this]
    simp
  unfold Overlay.SetCursorIterated
  rw [Overlay._LoadCursorIterated_eq cfg env o info hlen hid hv]
  simp only [Overlay.searchResult, hf]

theorem C5_iterated_none_accepted_witness :
    overlay2._cursors.length = cfg0.CURSOR_ID_COUNT ∧
    (⟨.CURSOR_TYPE_OVERLAY, 2, 3, 32⟩ : CursorInfo).id < cfg0.CURSOR_ID_COUNT ∧
    (⟨.CURSOR_TYPE_OVERLAY, 2, 3, 32⟩ : CursorInfo).variation < cfg0.CURSOR_VARIATION_COUNT ∧
    (∀ i v, i < cfg0.CURSOR_ID_COUNT → v < cfg0.CURSOR_VARIATION_COUNT →
      overlay2.loads envNone ⟨.CURSOR_TYPE_OVERLAY, i, v, 32⟩ = false) ∧
    overlay2.SetCursorIterated cfg0 envNone ⟨.CURSOR_TYPE_OVERLAY, 2, 3, 32⟩ =
      some (false, ⟨.CURSOR_TYPE_OVERLAY, 2, 0, 32⟩, overlay2) :=
  have hnone : ∀ i v, i < cfg0.CURSOR_ID_COUNT → v < cfg0.CURSOR_VARIATION_COUNT →
      overlay2.loads envNone ⟨.CURSOR_TYPE_OVERLAY, i, v, 32⟩ = false := by
    intro i v hi _
    rw [Overlay.loads_eq_adopts envNone overlay2 _ (fun _ => hi)]
    simp only [Overlay.adopts]
    split <;> rfl
  ⟨by decide, by decide, by decide, hnone,
    C5_iterated_none_accepted cfg0 envNone overlay2 ⟨.CURSOR_TYPE_OVERLAY, 2, 3, 32⟩
      (by decide) (by decide) (by decide) hnone⟩


/-! ## A message without a window rectangle -/

theorem Overlay._OnFrameEventMessage_of_no_rect (env : Env) (o : Overlay) (m : List Char)
    (h : env.GetWindowRect o._hover_hwnd = none) : o._OnFrameEventMessage env m = o := by
  simp only [Overlay._OnFrameEventMessage, h]

@[simp] theorem Overlay._OnFrameEventMessage_hover_hwnd (env : Env) (o : Overlay)
    (m : List Char) : (o._OnFrameEventMessage env m)._hover_hwnd = o._hover_hwnd := by
  unfold Overlay._OnFrameEventMessage; split <;> rfl

@[simp] theorem Overlay._OnFrameEventMessage_cursors (env : Env) (o : Overlay)
    (m : List Char) : (o._OnFrameEventMessage env m)._cursors = o._cursors := by
  unfold Overlay._OnFrameEventMessage; split <;> rfl

/-- The in-frame drain leaves the mask zero. -/
theorem Overlay._ProcessInFrameEvents_in_frame_events (cfg : Config) (env : Env) (o : Overlay) :
    (o._ProcessInFrameEvents cfg env)._in_frame_events = 0 := by
  unfold Overlay._ProcessInFrameEvents
  by_cases h0 : o._in_frame_events = 0
  · simp [h0]
  · simp [h0]

/-- The in-frame drain writes the popup only through `_OnFrameEventMessage`. -/
theorem Overlay._ProcessInFrameEvents_text_popup (cfg : Config) (env : Env) (o : Overlay) :
    (o._ProcessInFrameEvents cfg env)._text_popup =
      if maskHas o._in_frame_events cfg.IN_FRAME_EVENT_SET_MESSAGE then
        (o._OnFrameEventMessage env o._message_event)._text_popup
      else o._text_popup := by
  unfold Overlay._ProcessInFrameEvents
  by_cases h0 : o._in_frame_events = 0
  · simp [h0, maskHas]
  · simp only [h0, ne_eq, not_false_eq_true, if_true]
    cases hh : maskHas o._in_frame_events cfg.IN_FRAME_EVENT_HIDE_CURSOR <;>
      cases hs : maskHas o._in_frame_events cfg.IN_FRAME_EVENT_SET_CURSOR <;>
      cases hm : maskHas o._in_frame_events cfg.IN_FRAME_EVENT_SET_MESSAGE <;>
      simp [hh, hs, hm, Overlay._OnFrameEventMessage] <;>
      split <;> rfl

/-- C11: when the hovered window handle has no screen rectangle, `SetMessage`
sets the set-message bit, and the in-frame drain that follows leaves the text
popup exactly as it was: `SetText` is not applied, so a popup that was
inactive is still inactive.  The drain leaves the in-frame mask zero, the
set-message bit with it, and a later drain with no new message leaves the
popup as it was again. -/
theorem C11_message_without_rect_dropped (cfg : Config) (env : Env) (o : Overlay)
    (text : List Char) (hrect : env.GetWindowRect o._hover_hwnd = none) :
    maskHas (o.SetMessage cfg text)._in_frame_events cfg.IN_FRAME_EVENT_SET_MESSAGE = true ∧
    ((o.SetMessage cfg text)._ProcessInFrameEvents cfg env)._text_popup = o._text_popup ∧
    (o._text_popup.active = false →
      ((o.SetMessage cfg text)._ProcessInFrameEvents cfg env)._text_popup.IsActive = false) ∧
    ((o.SetMessage cfg text)._ProcessInFrameEvents cfg env)._in_frame_events = 0 ∧
    maskHas ((o.SetMessage cfg text)._ProcessInFrameEvents cfg env)._in_frame_events
      cfg.IN_FRAME_EVENT_SET_MESSAGE = false ∧
    (((o.SetMessage cfg text)._ProcessInFrameEvents cfg env)._ProcessInFrameEvents
      cfg env)._text_popup = o._text_popup := by
  have hbit : maskHas (o.SetMessage cfg text)._in_frame_events
      cfg.IN_FRAME_EVENT_SET_MESSAGE = true := maskHas_or_self _ _
  have hrect1 : env.GetWindowRect (o.SetMessage cfg text)._hover_hwnd = none := hrect
  have hpop : ((o.SetMessage cfg text)._ProcessInFrameEvents cfg env)._text_popup =
      o._text_popup := by
    rw [Overlay._ProcessInFrameEvents_text_popup, hbit, if_pos rfl,
      Overlay._OnFrameEventMessage_of_no_rect env _ _ hrect1]
    rfl
  have hzero := Overlay._ProcessInFrameEvents_in_frame_events cfg env (o.SetMessage cfg text)
  refine ⟨hbit, hpop, ?_, hzero, ?_, ?_⟩
  · intro hin
    rw [hpop]
    exact hin
  · rw [hzero]
    simp [maskHas]
  · rw [Overlay._ProcessInFrameEvents_text_popup, hzero]
    simp [maskHas, hpop]

theorem C11_message_without_rect_dropped_witness :
    envZero.GetWindowRect overlay0._hover_hwnd = none ∧
    ((overlay0.SetMessage cfg0 "Hi".toList)._ProcessInFrameEvents cfg0 envZero)._text_popup
      = overlay0._text_popup ∧
    ((overlay0.SetMessage cfg0 "Hi".toList)._ProcessInFrameEvents cfg0 envZero)._in_frame_events
      = 0 :=
  ⟨by decide,
    (C11_message_without_rect_dropped cfg0 envZero overlay0 "Hi".toList (by decide)).2.1,
    (C11_message_without_rect_dropped cfg0 envZero overlay0 "Hi".toList (by decide)).2.2.2.1⟩


/-! ## The lifecycle flags -/

theorem Overlay._Initialize_flags (env : Env) (o : Overlay) (r : InitOutcome) :
    (o._Initialize env r).2._initialized = o._initialized ∧
    (o._Initialize env r).2._started = o._started ∧
    (o._Initialize env r).2._active = o._active := by
  unfold Overlay._Initialize
  cases r.window <;> cases r.render_context <;> cases r.mouse <;> cases r.basic_cursor <;>
    cases r.text_popup <;> simp [CursorObj.Initialize]

theorem Overlay.Initialize_flags (env : Env) (o : Overlay) (r : InitOutcome) :
    (o.Initialize env r).2._initialized = ((o.Initialize env r).1 || o._initialized) ∧
    (o.Initialize env r).2._started = o._started ∧
    (o.Initialize env r).2._active = o._active := by
  obtain ⟨h1, h2, h3⟩ := Overlay._Initialize_flags env o r
  unfold Overlay.Initialize
  cases h : (o._Initialize env r).1 <;> simp [h, Overlay._Shutdown, h1, h2, h3]

theorem Overlay.Start_flags (o : Overlay) (thread : Option Nat) :
    (o.Start thread).2._initialized = o._initialized ∧
    (o.Start thread).2._started = (thread.isSome || o._started) ∧
    (o.Start thread).2._active = (thread.isSome || o._active) := by
  cases thread <;> simp [Overlay.Start, Overlay._InitializeThread]

theorem Overlay.Stop_flags (o : Overlay) :
    o.Stop._initialized = o._initialized ∧ o.Stop._started = false ∧ o.Stop._active = false := by
  unfold Overlay.Stop Overlay._ShutdownThread
  cases h : o._active <;> simp [h]

theorem Overlay.Shutdown_flags (o : Overlay) :
    o.Shutdown._initialized = false ∧ o.Shutdown._started = o._started ∧
      o.Shutdown._active = o._active := by
  simp [Overlay.Shutdown, Overlay._Shutdown]

/-- A lifecycle call whose assertions hold keeps the flags ordered, provided
`Start` is called on an initialized overlay: the one condition that no
assertion of `Start` checks. -/
theorem Overlay.lifecycleStep_flagsOrdered (env : Env) (o : Overlay) (c : LifecycleCall)
    (hord : o.flagsOrdered) (hassert : o.lifecycleAsserts c = true)
    (hstart : ∀ thread, c = .Start thread → o._initialized = true) :
    (o.lifecycleStep env c).flagsOrdered := by
  obtain ⟨has, hsi⟩ := hord
  cases c with
  | Initialize r =>
    obtain ⟨h1, h2, h3⟩ := Overlay.Initialize_flags env o r
    simp only [Overlay.lifecycleAsserts, Overlay.IsInitialized, Bool.not_eq_true'] at hassert
    simp only [Overlay.flagsOrdered, Overlay.lifecycleStep, h1, h2, h3]
    refine ⟨has, fun hs => ?_⟩
    have := hsi hs
    rw [hassert] at this
    exact Bool.noConfusion this
  | Shutdown =>
    obtain ⟨h1, h2, h3⟩ := Overlay.Shutdown_flags o
    simp only [Overlay.lifecycleAsserts, Overlay.IsInitialized, Overlay.IsStarted,
      Bool.and_eq_true, Bool.not_eq_true'] at hassert
    simp only [Overlay.flagsOrdered, Overlay.lifecycleStep, h1, h2, h3]
    refine ⟨has, fun hs => ?_⟩
    rw [hassert.2] at hs
    exact Bool.noConfusion hs
  | Start thread =>
    obtain ⟨h1, h2, h3⟩ := Overlay.Start_flags o thread
    have hinit := hstart thread rfl
    simp only [Overlay.flagsOrdered, Overlay.lifecycleStep, h1, h2, h3, hinit]
    cases thread with
    | none => simpa using has
    | some t => simp
  | Stop =>
    obtain ⟨h1, h2, h3⟩ := Overlay.Stop_flags o
    simp only [Overlay.flagsOrdered, Overlay.lifecycleStep, h1, h2, h3]
    simp

/-- After any sequence of lifecycle calls whose assertions hold, active
implies started. -/
theorem Overlay.lifecycleRun_active_started (env : Env) (calls : List LifecycleCall) :
    ∀ (o o1 : Overlay), (o._active = true → o._started = true) →
      o.lifecycleRun env calls = some o1 → (o1._active = true → o1._started = true) := by
  induction calls with
  | nil =>
    intro o o1 h0 h
    simp only [Overlay.lifecycleRun, Option.some.injEq] at h
    rw [← h]; exact h0
  | cons c rest ih =>
    intro o o1 h0 h
    simp only [Overlay.lifecycleRun] at h
    split at h
    · refine ih _ o1 ?_ h
      cases c with
      | Initialize r =>
        obtain ⟨_, h2, h3⟩ := Overlay.Initialize_flags env o r
        simp only [Overlay.lifecycleStep, h2, h3]; exact h0
      | Shutdown =>
        obtain ⟨_, h2, h3⟩ := Overlay.Shutdown_flags o
        simp only [Overlay.lifecycleStep, h2, h3]; exact h0
      | Start thread =>
        obtain ⟨_, h2, h3⟩ := Overlay.Start_flags o thread
        simp only [Overlay.lifecycleStep, h2, h3]
        cases thread with
        | none => simpa using h0
        | some t => simp
      | Stop =>
        obtain ⟨_, h2, h3⟩ := Overlay.Stop_flags o
        simp only [Overlay.lifecycleStep, h2, h3]; simp
    · exact Option.noConfusion h

/-- C12, at the failing input: on a freshly constructed overlay the one
assertion of `Start` holds, `CreateThread` succeeds, and the overlay is then
active and started but not initialized, so the flags are not ordered. -/
theorem C12_start_before_initialize :
    overlay0.flagsOrdered ∧
    overlay0.lifecycleAsserts (.Start (some 1)) = true ∧
    ∃ o1, overlay0.lifecycleRun envZero [.Start (some 1)] = some o1 ∧
      o1._active = true ∧ o1._started = true ∧ o1._initialized = false ∧
      ¬ o1.flagsOrdered :=
  ⟨by decide, rfl, _, rfl, rfl, rfl, rfl, by decide⟩


/-! ## What leaves the active cursor alone -/

@[simp] theorem Overlay.resizeCursors_active_cursor (r : AspectRatio)
    (l : List (Option CursorPtr)) (o : Overlay) :
    (Overlay.resizeCursors r l o)._active_cursor = o._active_cursor := by
  induction l generalizing o with
  | nil => rfl
  | cons x rest ih => cases x <;> simp [Overlay.resizeCursors, ih]

@[simp] theorem Overlay.resizeCursors_cursor_event (r : AspectRatio)
    (l : List (Option CursorPtr)) (o : Overlay) :
    (Overlay.resizeCursors r l o)._cursor_event = o._cursor_event := by
  induction l generalizing o with
  | nil => rfl
  | cons x rest ih => cases x <;> simp [Overlay.resizeCursors, ih]

@[simp] theorem Overlay.resizeCursors_in_frame_events (r : AspectRatio)
    (l : List (Option CursorPtr)) (o : Overlay) :
    (Overlay.resizeCursors r l o)._in_frame_events = o._in_frame_events := by
  induction l generalizing o with
  | nil => rfl
  | cons x rest ih => cases x <;> simp [Overlay.resizeCursors, ih]

@[simp] theorem Overlay.resizeCursors_hover_hwnd (r : AspectRatio)
    (l : List (Option CursorPtr)) (o : Overlay) :
    (Overlay.resizeCursors r l o)._hover_hwnd = o._hover_hwnd := by
  induction l generalizing o with
  | nil => rfl
  | cons x rest ih => cases x <;> simp [Overlay.resizeCursors, ih]

/-- The pre-frame drain writes none of the hover handle, the in-frame mask,
the pending cursor, the active cursor and the table; of the text popup it
writes the aspect ratio, and only when a resize is pending. -/
theorem Overlay._ProcessPreFrameEvents_frame (cfg : Config) (env : Env) (o : Overlay) :
    (o._ProcessPreFrameEvents cfg env)._hover_hwnd = o._hover_hwnd ∧
    (o._ProcessPreFrameEvents cfg env)._in_frame_events = o._in_frame_events ∧
    (o._ProcessPreFrameEvents cfg env)._cursor_event = o._cursor_event ∧
    (o._ProcessPreFrameEvents cfg env)._active_cursor = o._active_cursor ∧
    (o._ProcessPreFrameEvents cfg env)._cursors = o._cursors ∧
    (o._ProcessPreFrameEvents cfg env)._text_popup =
      (if maskHas o._pre_frame_events cfg.PRE_FRAME_EVENT_RESIZE then
        o._text_popup.SetAspectRatio
          (env.Window_GetAspectRatio (env.Window_SetSize o._window o._resize_event))
      else o._text_popup) := by
  unfold Overlay._ProcessPreFrameEvents
  by_cases h0 : o._pre_frame_events = 0
  · simp [h0, maskHas]
  · cases hm : maskHas o._pre_frame_events cfg.PRE_FRAME_EVENT_RESIZE <;>
      simp [h0, hm, Overlay._OnFrameEventResize]

theorem Overlay._LoadCursor_active_cursor (env : Env) (o o1 : Overlay) (info : CursorInfo)
    (r : Option CursorPtr) (h : o._LoadCursor env info = some (r, o1)) :
    o1._active_cursor = o._active_cursor := by
  obtain ⟨_, he⟩ := Overlay._LoadCursor_some env o o1 info r h
  cases ha : o.adopts env info with
  | false =>
    rw [ha] at he
    simp only [Bool.false_eq_true, if_false, Prod.mk.injEq] at he
    rw [he.2]
  | true =>
    rw [ha] at he
    simp only [if_true, Prod.mk.injEq] at he
    rw [he.2]
    simp

theorem Overlay.variationLoop_active_cursor (cfg : Config) (env : Env) :
    ∀ (n : Nat) (o : Overlay) (info : CursorInfo) (r : LoadResult),
      Overlay.variationLoop cfg env n o info = some r →
      r.overlay._active_cursor = o._active_cursor
  | 0, o, info, r, h => by
    simp only [Overlay.variationLoop, Option.some.injEq] at h
    rw [← h]
  | n + 1, o, info, r, h => by
    unfold Overlay.variationLoop at h
    cases hl : o._LoadCursor env info with
    | none => rw [hl] at h; exact Option.noConfusion h
    | some x =>
      obtain ⟨c, o1⟩ := x
      have hact := Overlay._LoadCursor_active_cursor env o o1 info c hl
      rw [hl] at h
      cases c with
      | some cursor =>
        simp only [Option.some.injEq] at h
        rw [← h]; exact hact
      | none =>
        simp only at h
        cases hv : Overlay.variationLoop cfg env n o1
            { info with variation := (info.variation + 1) % cfg.CURSOR_VARIATION_COUNT } with
        | none => rw [hv] at h; exact Option.noConfusion h
        | some r2 =>
          rw [hv] at h
          simp only [Option.some.injEq] at h
          rw [← h]
          exact (Overlay.variationLoop_active_cursor cfg env n o1 _ r2 hv).trans hact

theorem Overlay.idLoop_active_cursor (cfg : Config) (env : Env) :
    ∀ (n : Nat) (o : Overlay) (info : CursorInfo) (r : LoadResult),
      Overlay.idLoop cfg env n o info = some r →
      r.overlay._active_cursor = o._active_cursor
  | 0, o, info, r, h => by
    simp only [Overlay.idLoop, Option.some.injEq] at h
    rw [← h]
  | n + 1, o, info, r, h => by
    unfold Overlay.idLoop at h
    cases hv : Overlay.variationLoop cfg env cfg.CURSOR_VARIATION_COUNT o info with
    | none => rw [hv] at h; exact Option.noConfusion h
    | some r1 =>
      have hact := Overlay.variationLoop_active_cursor cfg env _ o info r1 hv
      rw [hv] at h
      simp only at h
      cases hc : r1.cursor with
      | some cursor =>
        rw [hc] at h
        simp only [Option.some.injEq] at h
        rw [← h]; exact hact
      | none =>
        rw [hc] at h
        simp only at h
        cases hi : Overlay.idLoop cfg env n r1.overlay
            { r1.info with variation := 0, id := (r1.info.id + 1) % cfg.CURSOR_ID_COUNT } with
        | none => rw [hi] at h; exact Option.noConfusion h
        | some r2 =>
          rw [hi] at h
          simp only [Option.some.injEq] at h
          rw [← h]
          exact (Overlay.idLoop_active_cursor cfg env n r1.overlay _ r2 hi).trans hact


/-- C13: each of `SetCursor`, `SetCursorIterated`, `SetCursorHidden`,
`SetMessage`, `SetReduceLatency`, `InstallCursor`, `UninstallCursor`,
`_OnDisplayChange` and `_ProcessPreFrameEvents` leaves `_active_cursor` equal
to its value before the call, whatever the call returns; and
`_ProcessInFrameEvents` does change it in some state. -/
theorem C13_active_cursor_changes_only_at_drain (cfg : Config) (env : Env) (o : Overlay) :
    (∀ info b o1, o.SetCursor cfg env info = some (b, o1) →
      o1._active_cursor = o._active_cursor) ∧
    (∀ info b info1 o1, o.SetCursorIterated cfg env info = some (b, info1, o1) →
      o1._active_cursor = o._active_cursor) ∧
    (o.SetCursorHidden cfg)._active_cursor = o._active_cursor ∧
    (∀ message, (o.SetMessage cfg message)._active_cursor = o._active_cursor) ∧
    (∀ enable, (o.SetReduceLatency enable)._active_cursor = o._active_cursor) ∧
    (∀ id cursor initOk b o1, o.InstallCursor env id cursor initOk = some (b, o1) →
      o1._active_cursor = o._active_cursor) ∧
    (∀ id b o1, o.UninstallCursor id = some (b, o1) →
      o1._active_cursor = o._active_cursor) ∧
    (∀ width height, (o._OnDisplayChange cfg width height)._active_cursor = o._active_cursor) ∧
    (o._ProcessPreFrameEvents cfg env)._active_cursor = o._active_cursor ∧
    (∃ o0 : Overlay, (o0._ProcessInFrameEvents cfg env)._active_cursor ≠ o0._active_cursor) := by
  refine ⟨?_, ?_, rfl, fun _ => rfl, fun _ => rfl, ?_, ?_, fun _ _ => rfl,
    (Overlay._ProcessPreFrameEvents_frame cfg env o).2.2.2.1, ?_⟩
  · intro info b o1 h
    unfold Overlay.SetCursor at h
    cases hl : o._LoadCursor env info with
    | none => rw [hl] at h; exact Option.noConfusion h
    | some x =>
      obtain ⟨c, o2⟩ := x
      have hact := Overlay._LoadCursor_active_cursor env o o2 info c hl
      rw [hl] at h
      cases c with
      | none =>
        simp only [Option.some.injEq, Prod.mk.injEq] at h
        rw [← h.2]; exact hact
      | some cursor =>
        simp only [Option.some.injEq, Prod.mk.injEq] at h
        rw [← h.2]; exact hact
  · intro info b info1 o1 h
    unfold Overlay.SetCursorIterated Overlay._LoadCursorIterated at h
    cases hi : Overlay.idLoop cfg env cfg.CURSOR_ID_COUNT o info with
    | none => rw [hi] at h; exact Option.noConfusion h
    | some r =>
      have hact := Overlay.idLoop_active_cursor cfg env _ o info r hi
      rw [hi] at h
      simp only at h
      cases hc : r.cursor with
      | none =>
        rw [hc] at h
        simp only [Option.some.injEq, Prod.mk.injEq] at h
        rw [← h.2.2]; exact hact
      | some cursor =>
        rw [hc] at h
        simp only [Option.some.injEq, Prod.mk.injEq] at h
        rw [← h.2.2]; exact hact
  · intro id cursor initOk b o1 h
    unfold Overlay.InstallCursor at h
    cases hs : o._cursors[id]? with
    | none => rw [hs] at h; exact Option.noConfusion h
    | some slot =>
      rw [hs] at h
      cases initOk <;>
        simp only [CursorObj.Initialize, Bool.false_eq_true, if_false, if_true,
          Option.some.injEq, Prod.mk.injEq] at h <;>
        rw [← h.2] <;> simp
  · intro id b o1 h
    unfold Overlay.UninstallCursor at h
    cases hs : o._cursors[id]? with
    | none => rw [hs] at h; exact Option.noConfusion h
    | some slot =>
      rw [hs] at h
      cases slot with
      | none =>
        simp only [Option.some.injEq, Prod.mk.injEq] at h
        rw [← h.2]
      | some p =>
        simp only [Option.some.injEq, Prod.mk.injEq] at h
        rw [← h.2]
        simp
  · refine ⟨{ o with
      _in_frame_events := 2 ^ cfg.setCursorBit
      _cursor_event := some .basic
      _active_cursor := none }, ?_⟩
    rw [Overlay._ProcessInFrameEvents_active_cursor]
    have hne : (2 : Nat) ^ cfg.setCursorBit ≠ 0 := Nat.pos_iff_ne_zero.1 (Nat.two_pow_pos _)
    have hset : maskHas (2 ^ cfg.setCursorBit) cfg.IN_FRAME_EVENT_SET_CURSOR = true := by
      rw [Config.IN_FRAME_EVENT_SET_CURSOR, maskHas_two_pow, Nat.testBit_two_pow_self]
    simp [hne, hset]

theorem C13_active_cursor_changes_only_at_drain_witness :
    ∃ o1, overlay2.SetCursor cfg0 envZero ⟨.CURSOR_TYPE_OVERLAY, 2, 0, 32⟩ = some (true, o1) ∧
      o1._cursor_event = some (.ext 5) ∧ o1._active_cursor = overlay2._active_cursor :=
  ⟨_, rfl, rfl,
    (C13_active_cursor_changes_only_at_drain cfg0 envZero overlay2).1
      ⟨.CURSOR_TYPE_OVERLAY, 2, 0, 32⟩ true _ rfl⟩

/-! ## `InstallCursor` -/

/-- C14: for an id inside the table whose slot is empty, `InstallCursor(id, c)`
returns, and returns true exactly when `c.Initialize` succeeds.  On success
slot `id` refers to `c`, `IsCursorInstalled(id)` is true, `c` is initialized
and holds the aspect ratio of the window, and every other slot is unchanged;
on failure the table is unchanged.  The lifecycle flag plays no part. -/
theorem C14_InstallCursor (env : Env) (o : Overlay) (id : CursorId) (c : CursorPtr)
    (initOk : Bool) (hid : id < o._cursors.length) (hempty : o._cursors[id]? = some none) :
    o.IsCursorInstalled id = some false ∧
    ∃ b o1, o.InstallCursor env id c initOk = some (b, o1) ∧
      b = ((o.deref c).Initialize initOk).1 ∧ b = initOk ∧
      (b = true →
        o1._cursors[id]? = some (some c) ∧
        o1.IsCursorInstalled id = some true ∧
        (o1.deref c).initialized = true ∧
        (o1.deref c).aspect_ratio = env.Window_GetAspectRatio o._window ∧
        o1._window = o._window ∧
        o1._cursors.length = o._cursors.length ∧
        (∀ j, j ≠ id → o1._cursors[j]? = o._cursors[j]?)) ∧
      (b = false → o1._cursors = o._cursors ∧ o1 = o) := by
  refine ⟨by simp [Overlay.IsCursorInstalled, hempty], ?_⟩
  cases initOk with
  | false =>
    refine ⟨false, o, ?_, ?_, rfl, ?_, ?_⟩
    · simp [Overlay.InstallCursor, hempty, CursorObj.Initialize, Overlay.store_deref]
    · simp [CursorObj.Initialize]
    · intro h; exact Bool.noConfusion h
    · intro _; exact ⟨rfl, rfl⟩
  | true =>
    refine ⟨true, { (o.store c ({ o.deref c with initialized := true } : CursorObj)).store c
        ((({ o.deref c with initialized := true } : CursorObj)).SetAspectRatio
          (env.Window_GetAspectRatio o._window)) with
        _cursors := o._cursors.set id (some c) }, ?_, ?_, rfl, ?_, ?_⟩
    · simp [Overlay.InstallCursor, hempty, CursorObj.Initialize]
    · simp [CursorObj.Initialize]
    · intro _
      have hd : ∀ (o2 : Overlay) (l : List (Option CursorPtr)),
          ({ o2 with _cursors := l } : Overlay).deref c = o2.deref c := by
        intro o2 l; cases c <;> rfl
      refine ⟨?_, ?_, ?_, ?_, ?_, ?_, ?_⟩
      · simp [List.getElem?_set, hid]
      · simp [Overlay.IsCursorInstalled, List.getElem?_set, hid]
      · rw [hd, Overlay.deref_store_self]; rfl
      · rw [hd, Overlay.deref_store_self]; rfl
      · simp
      · simp
      · intro j hj
        simp [List.getElem?_set, Ne.symm hj]
    · intro h; exact Bool.noConfusion h

theorem C14_InstallCursor_witness :
    3 < overlay2._cursors.length ∧ overlay2._cursors[3]? = some none ∧
    ∃ b o1, overlay2.InstallCursor envZero 3 (.ext 9) true = some (b, o1) ∧ b = true :=
  ⟨by decide, by decide,
    (C14_InstallCursor envZero overlay2 3 (.ext 9) true (by decide) (by decide)).2.imp
      fun _ hb => hb.imp fun _ ho => ⟨ho.1, ho.2.2.1⟩⟩



/-! ## One pass of the frame loop -/

theorem Overlay._ProcessPreFrameEvents_pre_frame_events (cfg : Config) (env : Env)
    (o : Overlay) : (o._ProcessPreFrameEvents cfg env)._pre_frame_events = 0 := by
  unfold Overlay._ProcessPreFrameEvents
  by_cases h0 : o._pre_frame_events = 0
  · simp [h0]
  · simp [h0]

/-- C16, as stated, fails for the text popup: with a resize pending and no
pointer position, one pass of the frame loop changes the aspect ratio the
popup holds (the pre-frame drain runs before the pointer is sampled). -/
theorem C16_popup_aspect_ratio_counterexample :
    ((overlay0._OnDisplayChange cfg0 800 600)._FrameLoop_body cfg0 envZero
        ⟨none, fun _ => 0⟩).2.idle = true ∧
    (overlay0._OnDisplayChange cfg0 800 600)._text_popup.aspect_ratio = 0 ∧
    ((overlay0._OnDisplayChange cfg0 800 600)._FrameLoop_body cfg0 envZero
        ⟨none, fun _ => 0⟩).1._text_popup.aspect_ratio = 800 ∧
    ((overlay0._OnDisplayChange cfg0 800 600)._FrameLoop_body cfg0 envZero
        ⟨none, fun _ => 0⟩).1._text_popup ≠
      (overlay0._OnDisplayChange cfg0 800 600)._text_popup := by
  refine ⟨rfl, rfl, by decide, by decide⟩

/-- C16 (amended): in one pass of the frame loop in which the pointer service
reports no position, only the pre-frame drain runs: the overlay after the pass
is the overlay after `_ProcessPreFrameEvents`, with the pre-frame mask zero.
The hover handle, the in-frame mask, the pending cursor and the active cursor
are unchanged; of the text popup nothing changes but the aspect ratio, and
that only when a resize was pending.  No hover notification is sent, nothing
is drawn, and `RenderComplete` gets `idle = true`. -/
theorem C16_no_pointer_position (cfg : Config) (env : Env) (o : Overlay) (input : FrameInput)
    (hno : input.pointer = none) :
    (o._FrameLoop_body cfg env input).1 = o._ProcessPreFrameEvents cfg env ∧
    (o._FrameLoop_body cfg env input).1._pre_frame_events = 0 ∧
    (o._FrameLoop_body cfg env input).1._hover_hwnd = o._hover_hwnd ∧
    (o._FrameLoop_body cfg env input).1._in_frame_events = o._in_frame_events ∧
    (o._FrameLoop_body cfg env input).1._cursor_event = o._cursor_event ∧
    (o._FrameLoop_body cfg env input).1._active_cursor = o._active_cursor ∧
    (o._FrameLoop_body cfg env input).1._text_popup.active = o._text_popup.active ∧
    (o._FrameLoop_body cfg env input).1._text_popup.text = o._text_popup.text ∧
    (o._FrameLoop_body cfg env input).1._text_popup.position = o._text_popup.position ∧
    (o._FrameLoop_body cfg env input).1._text_popup.timeout = o._text_popup.timeout ∧
    (maskHas o._pre_frame_events cfg.PRE_FRAME_EVENT_RESIZE = false →
      (o._FrameLoop_body cfg env input).1._text_popup = o._text_popup) ∧
    (o._FrameLoop_body cfg env input).2 = ⟨none, false, none, true⟩ := by
  have hbody : o._FrameLoop_body cfg env input =
      (o._ProcessPreFrameEvents cfg env, ⟨none, false, none, true⟩) := by
    simp only [Overlay._FrameLoop_body, hno]
  obtain ⟨h1, h2, h3, h4, _, h6⟩ := Overlay._ProcessPreFrameEvents_frame cfg env o
  rw [hbody]
  refine ⟨rfl, Overlay._ProcessPreFrameEvents_pre_frame_events cfg env o, h1, h2, h3, h4,
    ?_, ?_, ?_, ?_, ?_, rfl⟩
  · simp only [h6]; split <;> rfl
  · simp only [h6]; split <;> rfl
  · simp only [h6]; split <;> rfl
  · simp only [h6]; split <;> rfl
  · intro hm
    simp only [h6, hm, Bool.false_eq_true, if_false]

theorem C16_no_pointer_position_witness :
    (⟨none, fun _ => 0⟩ : FrameInput).pointer = none ∧
    (overlay2._FrameLoop_body cfg0 envZero ⟨none, fun _ => 0⟩).2 = ⟨none, false, none, true⟩ ∧
    (overlay2._FrameLoop_body cfg0 envZero ⟨none, fun _ => 0⟩).1._active_cursor
      = overlay2._active_cursor :=
  ⟨rfl, (C16_no_pointer_position cfg0 envZero overlay2 ⟨none, fun _ => 0⟩ rfl).2.2.2.2.2.2.2.2.2.2.2,
    (C16_no_pointer_position cfg0 envZero overlay2 ⟨none, fun _ => 0⟩ rfl).2.2.2.2.2.1⟩

/-- C17: in one pass of the frame loop the `idle` argument of `RenderComplete`
is true exactly when nothing was drawn.  It is false exactly when the pointer
position was available and, after the in-frame drain, the text popup is active
or the active cursor is not none; with a position available the popup is drawn
exactly when it is active then, and the cursor drawn is the active cursor, at
the sampled normalized position. -/
theorem C17_idle_iff_nothing_drawn (cfg : Config) (env : Env) (o : Overlay)
    (input : FrameInput) :
    ((o._FrameLoop_body cfg env input).2.idle = true ↔
      ((o._FrameLoop_body cfg env input).2.popup_drawn = false ∧
        (o._FrameLoop_body cfg env input).2.cursor_drawn = none)) ∧
    ((o._FrameLoop_body cfg env input).2.idle = false ↔
      ∃ wp np, input.pointer = some (wp, np) ∧
        ((o.afterInFrameDrain cfg env input wp)._text_popup.IsActive = true ∨
          (o.afterInFrameDrain cfg env input wp)._active_cursor ≠ none)) ∧
    (∀ wp np, input.pointer = some (wp, np) →
      (o._FrameLoop_body cfg env input).2.popup_drawn =
          (o.afterInFrameDrain cfg env input wp)._text_popup.IsActive ∧
        (o._FrameLoop_body cfg env input).2.cursor_drawn =
          ((o.afterInFrameDrain cfg env input wp)._active_cursor.map fun c => (c, np))) := by
  cases hp : input.pointer with
  | none =>
    have hbody : o._FrameLoop_body cfg env input =
        (o._ProcessPreFrameEvents cfg env, ⟨none, false, none, true⟩) := by
      simp only [Overlay._FrameLoop_body, hp]
    rw [hbody]
    simp
  | some pos =>
    obtain ⟨wp, np⟩ := pos
    have hpop : ∀ o3 : Overlay, o3._UpdateTextPopup.1 = o3._text_popup.IsActive ∧
        o3._UpdateTextPopup.2._active_cursor = o3._active_cursor := by
      intro o3
      unfold Overlay._UpdateTextPopup
      cases o3._text_popup.IsActive <;> simp
    have hgen : ∀ (o3 : Overlay) (hw : HWND),
        (match o3._UpdateTextPopup.2._active_cursor with
          | some cursor =>
            (o3._UpdateTextPopup.2.store cursor
                ((o3._UpdateTextPopup.2.deref cursor).Draw np),
              (⟨some hw, o3._UpdateTextPopup.1, some (cursor, np), false⟩ : FrameReport))
          | none =>
            (o3._UpdateTextPopup.2,
              ⟨some hw, o3._UpdateTextPopup.1, none,
                if o3._UpdateTextPopup.1 then false else true⟩)).2 =
          ⟨some hw, o3._text_popup.IsActive, o3._active_cursor.map fun c => (c, np),
            !(o3._text_popup.IsActive || o3._active_cursor.isSome)⟩ := by
      intro o3 hw
      obtain ⟨h1, h2⟩ := hpop o3
      rw [h2, h1]
      cases o3._active_cursor with
      | none => cases o3._text_popup.IsActive <;> rfl
      | some c => cases o3._text_popup.IsActive <;> rfl
    have hrep : (o._FrameLoop_body cfg env input).2 =
        ⟨some (input.WindowFromPoint wp),
          (o.afterInFrameDrain cfg env input wp)._text_popup.IsActive,
          (o.afterInFrameDrain cfg env input wp)._active_cursor.map fun c => (c, np),
          !((o.afterInFrameDrain cfg env input wp)._text_popup.IsActive ||
            (o.afterInFrameDrain cfg env input wp)._active_cursor.isSome)⟩ := by
      unfold Overlay._FrameLoop_body
      rw [hp]
      exact hgen (o.afterInFrameDrain cfg env input wp) (input.WindowFromPoint wp)
    rw [hrep]
    refine ⟨?_, ?_, ?_⟩
    · cases (o.afterInFrameDrain cfg env input wp)._text_popup.IsActive <;>
        cases (o.afterInFrameDrain cfg env input wp)._active_cursor <;> simp
    · constructor
      · intro h
        refine ⟨wp, np, rfl, ?_⟩
        cases ht : (o.afterInFrameDrain cfg env input wp)._text_popup.IsActive with
        | true => exact Or.inl rfl
        | false =>
          right
          intro hnone
          simp [ht, hnone] at h
      · rintro ⟨wp2, np2, heq, hor⟩
        simp only [Option.some.injEq, Prod.mk.injEq] at heq
        obtain ⟨rfl, rfl⟩ := heq
        rcases hor with ht | ha
        · simp [ht]
        · cases hc : (o.afterInFrameDrain cfg env input wp)._active_cursor with
          | none => exact absurd hc ha
          | some c => simp
    · intro wp2 np2 heq
      simp only [Option.some.injEq, Prod.mk.injEq] at heq
      obtain ⟨rfl, rfl⟩ := heq
      exact ⟨rfl, rfl⟩


/-! ## Bounds of the cyclic search -/

theorem Overlay.searchResult_probes_isPrefix (env : Env) (o : Overlay) (info fb : CursorInfo)
    (l : List (CursorId × CursorVariation)) : (o.searchResult env info fb l).probes <+: l := by
  unfold Overlay.searchResult
  split
  · exact List.prefix_refl _
  · exact uptoFirst_isPrefix _ _

theorem Overlay.searchResult_info (env : Env) (o : Overlay) (info fb : CursorInfo)
    (l : List (CursorId × CursorVariation)) :
    (o.searchResult env info fb l).info = fb ∨
      ∃ q ∈ l, (o.searchResult env info fb l).info = info.withPair q := by
  unfold Overlay.searchResult
  split
  · exact Or.inl rfl
  · next q hf =>
    obtain ⟨_, pre, post, hl, _⟩ := List.find?_eq_some.1 hf
    exact Or.inr ⟨q, by rw [hl]; simp, rfl⟩

/-- C19: from a request inside the table, `_LoadCursorIterated` returns, every
pair it passes to `_LoadCursor` has its id below `CURSOR_ID_COUNT` and its
variation below `CURSOR_VARIATION_COUNT`, so the id indexes the table and the
call of `_LoadCursor` has a defined result; the request it hands back, with a
cursor or without, is inside the table as well. -/
theorem C19_search_stays_in_bounds (cfg : Config) (env : Env) (o : Overlay)
    (info : CursorInfo) (hlen : o._cursors.length = cfg.CURSOR_ID_COUNT)
    (hid : info.id < cfg.CURSOR_ID_COUNT) (hv : info.variation < cfg.CURSOR_VARIATION_COUNT) :
    ∃ r, o._LoadCursorIterated cfg env info = some r ∧
      (∀ q ∈ r.probes, q.1 < cfg.CURSOR_ID_COUNT ∧ q.2 < cfg.CURSOR_VARIATION_COUNT) ∧
      (∀ q ∈ r.probes, q.1 < o._cursors.length ∧ o._LoadCursor env (info.withPair q) ≠ none) ∧
      r.info.id < cfg.CURSOR_ID_COUNT ∧ r.info.variation < cfg.CURSOR_VARIATION_COUNT := by
  refine ⟨_, Overlay._LoadCursorIterated_eq cfg env o info hlen hid hv, ?_⟩
  have hvpos : 0 < cfg.CURSOR_VARIATION_COUNT := Nat.lt_of_le_of_lt (Nat.zero_le _) hv
  have hin : ∀ q ∈ (o.searchResult env info { info with variation := 0 }
      (probeOrder cfg info.id info.variation)).probes,
      q.1 < cfg.CURSOR_ID_COUNT ∧ q.2 < cfg.CURSOR_VARIATION_COUNT := fun q hq =>
    (mem_probeOrder_iff cfg _ _ hid hv q).1
      ((Overlay.searchResult_probes_isPrefix env o info _ _).subset hq)
  refine ⟨hin, ?_, ?_⟩
  · intro q hq
    have hq1 := (hin q hq).1
    refine ⟨hlen ▸ hq1, ?_⟩
    intro hnone
    have := ((Overlay._LoadCursor_eq_none env o (info.withPair q)).1 hnone).2
    have hq2 : q.1 < o._cursors.length := hlen ▸ hq1
    exact absurd hq2 (Nat.not_lt.2 this)
  · rcases Overlay.searchResult_info env o info { info with variation := 0 }
      (probeOrder cfg info.id info.variation) with h | ⟨q, hq, h⟩
    · rw [h]
      exact ⟨hid, hvpos⟩
    · rw [h]
      exact (mem_probeOrder_iff cfg _ _ hid hv q).1 hq

theorem C19_search_stays_in_bounds_witness :
    overlay2._cursors.length = cfg0.CURSOR_ID_COUNT ∧
    (⟨.CURSOR_TYPE_OVERLAY, 7, 9, 32⟩ : CursorInfo).id < cfg0.CURSOR_ID_COUNT ∧
    (⟨.CURSOR_TYPE_OVERLAY, 7, 9, 32⟩ : CursorInfo).variation < cfg0.CURSOR_VARIATION_COUNT ∧
    ∃ r, overlay2._LoadCursorIterated cfg0 envZero ⟨.CURSOR_TYPE_OVERLAY, 7, 9, 32⟩ = some r ∧
      r.info.id < cfg0.CURSOR_ID_COUNT ∧ r.info.variation < cfg0.CURSOR_VARIATION_COUNT :=
  ⟨by decide, by decide, by decide,
    (C19_search_stays_in_bounds cfg0 envZero overlay2 ⟨.CURSOR_TYPE_OVERLAY, 7, 9, 32⟩
      (by decide) (by decide) (by decide)).imp fun _ h => ⟨h.1, h.2.2.2⟩⟩


/-! ## The cursors in use and the table -/

theorem mem_set_of_mem_of_ne {α : Type} (l : List α) (i : Nat) (a b : α) (ha : a ∈ l)
    (hne : l[i]? ≠ some a) : a ∈ l.set i b := by
  obtain ⟨n, hn⟩ := List.mem_iff_getElem?.1 ha
  refine List.mem_iff_getElem?.2 ⟨n, ?_⟩
  have hin : i ≠ n := by
    intro h
    subst h
    exact hne hn
  rw [List.getElem?_set_ne hin]
  exact hn

theorem Overlay.cursorKnown_of_cursors (o o1 : Overlay) (c : Option CursorPtr)
    (h : o1._cursors = o._cursors) (hc : o.cursorKnown c) : o1.cursorKnown c := by
  unfold Overlay.cursorKnown at hc ⊢
  rw [h]
  exact hc

/-- A slot may be overwritten without losing a known cursor that is not in it. -/
theorem Overlay.cursorKnown_set (o o1 : Overlay) (c slot : Option CursorPtr) (id : CursorId)
    (h : o1._cursors = o._cursors.set id slot) (hne : c ≠ none → o._cursors[id]? ≠ some c)
    (hc : o.cursorKnown c) : o1.cursorKnown c := by
  unfold Overlay.cursorKnown at hc ⊢
  rcases hc with h0 | hb | hm
  · exact Or.inl h0
  · exact Or.inr (Or.inl hb)
  · by_cases hn : c = none
    · exact Or.inl hn
    · right; right
      rw [h]
      exact mem_set_of_mem_of_ne _ _ _ _ hm (hne hn)

theorem Overlay.cursorKnown_addressed (o : Overlay) (info : CursorInfo) (c : CursorPtr)
    (h : o.addressed info = some c) : o.cursorKnown (some c) := by
  unfold Overlay.addressed at h
  unfold Overlay.cursorKnown
  cases ht : info.type with
  | CURSOR_TYPE_BASIC =>
    rw [ht] at h
    simp only [Option.some.injEq] at h
    exact Or.inr (Or.inl (by rw [h]))
  | other k =>
    rw [ht] at h
    exact Option.noConfusion h
  | CURSOR_TYPE_OVERLAY =>
    rw [ht] at h
    right; right
    cases hs : o._cursors[info.id]? with
    | none => rw [hs] at h; exact Option.noConfusion h
    | some slot =>
      rw [hs] at h
      simp only [Option.join, Option.some_bind, id_eq] at h
      rw [h] at hs
      exact List.mem_iff_getElem?.2 ⟨info.id, hs⟩

theorem Overlay.SetCursor_false (cfg : Config) (env : Env) (o o1 : Overlay) (info : CursorInfo)
    (h : o.SetCursor cfg env info = some (false, o1)) : o1 = o := by
  unfold Overlay.SetCursor at h
  cases hl : o._LoadCursor env info with
  | none => rw [hl] at h; exact Option.noConfusion h
  | some x =>
    obtain ⟨c, o2⟩ := x
    rw [hl] at h
    cases c with
    | none =>
      simp only [Option.some.injEq, Prod.mk.injEq, true_and] at h
      rw [← h]
      exact (Overlay._LoadCursor_some_none env o o2 info hl).2
    | some cursor => simp at h

theorem Overlay.SetCursorIterated_false (cfg : Config) (env : Env) (o o1 : Overlay)
    (info info1 : CursorInfo) (hlen : o._cursors.length = cfg.CURSOR_ID_COUNT)
    (hid : info.id < cfg.CURSOR_ID_COUNT) (hv : info.variation < cfg.CURSOR_VARIATION_COUNT)
    (h : o.SetCursorIterated cfg env info = some (false, info1, o1)) : o1 = o := by
  unfold Overlay.SetCursorIterated at h
  rw [Overlay._LoadCursorIterated_eq cfg env o info hlen hid hv] at h
  cases hf : (probeOrder cfg info.id info.variation).find?
      (fun q => o.adopts env (info.withPair q)) with
  | none =>
    simp only [Overlay.searchResult, hf, Option.some.injEq, Prod.mk.injEq, true_and] at h
    exact h.2.symm
  | some q =>
    have hq : o.adopts env (info.withPair q) = true := (List.find?_eq_some.1 hf).1
    obtain ⟨c, hc⟩ := Overlay.adopts_addressed env o _ hq
    simp [Overlay.searchResult, hf, hc] at h

theorem Overlay._ProcessInFrameEvents_cursors (cfg : Config) (env : Env) (o : Overlay) :
    (o._ProcessInFrameEvents cfg env)._cursors = o._cursors := by
  unfold Overlay._ProcessInFrameEvents
  by_cases h0 : o._in_frame_events = 0
  · simp [h0]
  · simp only [h0, ne_eq, not_false_eq_true, if_true]
    cases hh : maskHas o._in_frame_events cfg.IN_FRAME_EVENT_HIDE_CURSOR <;>
      cases hs : maskHas o._in_frame_events cfg.IN_FRAME_EVENT_SET_CURSOR <;>
      cases hm : maskHas o._in_frame_events cfg.IN_FRAME_EVENT_SET_MESSAGE <;>
      simp [hh, hs, hm]


theorem Overlay.InstallCursor_frame (env : Env) (o o1 : Overlay) (id : CursorId)
    (cursor : CursorPtr) (initOk b : Bool)
    (h : o.InstallCursor env id cursor initOk = some (b, o1)) :
    o1._active_cursor = o._active_cursor ∧ o1._cursor_event = o._cursor_event ∧
    o1._in_frame_events = o._in_frame_events ∧
    (o1._cursors = o._cursors ∨ o1._cursors = o._cursors.set id (some cursor)) := by
  unfold Overlay.InstallCursor at h
  cases hs : o._cursors[id]? with
  | none => rw [hs] at h; exact Option.noConfusion h
  | some slot =>
    rw [hs] at h
    cases initOk with
    | false =>
      simp only [CursorObj.Initialize, Bool.false_eq_true, if_false, Option.some.injEq,
        Prod.mk.injEq] at h
      rw [← h.2]
      simp
    | true =>
      simp only [CursorObj.Initialize, if_true, Option.some.injEq, Prod.mk.injEq] at h
      rw [← h.2]
      simp

theorem Overlay.UninstallCursor_frame (o o1 : Overlay) (id : CursorId) (b : Bool)
    (h : o.UninstallCursor id = some (b, o1)) :
    o1._active_cursor = o._active_cursor ∧ o1._cursor_event = o._cursor_event ∧
    o1._in_frame_events = o._in_frame_events ∧
    (o1._cursors = o._cursors ∨
      ∃ p, o._cursors[id]? = some (some p) ∧ o1._cursors = o._cursors.set id none) := by
  unfold Overlay.UninstallCursor at h
  cases hs : o._cursors[id]? with
  | none => rw [hs] at h; exact Option.noConfusion h
  | some slot =>
    rw [hs] at h
    cases slot with
    | none =>
      simp only [Option.some.injEq, Prod.mk.injEq] at h
      rw [← h.2]
      exact ⟨rfl, rfl, rfl, Or.inl rfl⟩
    | some p =>
      simp only [Option.some.injEq, Prod.mk.injEq] at h
      rw [← h.2]
      refine ⟨by simp, by simp, by simp, Or.inr ⟨p, rfl, by simp⟩⟩

/-- One allowed call that does not uninstall a cursor in use keeps the active
cursor and the pending cursor known. -/
theorem Overlay.opStep_cursorsKnown (cfg : Config) (hcfg : cfg.WellFormed) (env : Env)
    (o o1 : Overlay) (op : Op) (hallowed : o.opAllowed cfg op)
    (hkeep : o.keepsCursorsInUse cfg op) (hinv : o.cursorsKnown cfg)
    (hstep : o.opStep cfg env op = some o1) : o1.cursorsKnown cfg := by
  obtain ⟨hact, hpend⟩ := hinv
  obtain ⟨_, hs, _, _, hhs, _, hsm⟩ := hcfg
  cases op with
  | InstallCursor id cursor initOk =>
    simp only [Overlay.opStep, Option.map_eq_some'] at hstep
    obtain ⟨⟨b, o2⟩, hi, rfl⟩ := hstep
    obtain ⟨h1, h2, h3, h4⟩ := Overlay.InstallCursor_frame env o o2 id cursor initOk b hi
    have hempty : o._cursors[id]? = some none := hallowed.2
    have hk : ∀ c, o.cursorKnown c → o2.cursorKnown c := by
      intro c hc
      rcases h4 with h4 | h4
      · exact Overlay.cursorKnown_of_cursors o o2 c h4 hc
      · refine Overlay.cursorKnown_set o o2 c _ id h4 ?_ hc
        intro hn heq
        rw [hempty] at heq
        exact hn (Option.some.inj heq).symm
    refine ⟨?_, ?_⟩
    · show o2.cursorKnown o2._active_cursor
      rw [h1]; exact hk _ hact
    · show maskHas o2._in_frame_events _ = true → o2.cursorKnown o2._cursor_event
      rw [h2, h3]; exact fun hb => hk _ (hpend hb)
  | UninstallCursor id =>
    simp only [Overlay.opStep, Option.map_eq_some'] at hstep
    obtain ⟨⟨b, o2⟩, hi, rfl⟩ := hstep
    obtain ⟨h1, h2, h3, h4⟩ := Overlay.UninstallCursor_frame o o2 id b hi
    have hk : ∀ c, (∀ p, o._cursors[id]? = some (some p) → c ≠ some p) →
        o.cursorKnown c → o2.cursorKnown c := by
      intro c hcp hc
      rcases h4 with h4 | ⟨p, hp, h4⟩
      · exact Overlay.cursorKnown_of_cursors o o2 c h4 hc
      · refine Overlay.cursorKnown_set o o2 c _ id h4 ?_ hc
        intro _ heq
        rw [hp] at heq
        exact hcp p hp (Option.some.inj heq).symm
    have hkeep2 : ∀ p, o._cursors[id]? = some (some p) →
        o._active_cursor ≠ some p ∧
          (maskHas o._in_frame_events cfg.IN_FRAME_EVENT_SET_CURSOR = true →
            o._cursor_event ≠ some p) := by
      intro p hp
      refine hkeep p ?_
      rw [hp]
      rfl
    refine ⟨?_, ?_⟩
    · show o2.cursorKnown o2._active_cursor
      rw [h1]; exact hk _ (fun p hp => (hkeep2 p hp).1) hact
    · show maskHas o2._in_frame_events _ = true → o2.cursorKnown o2._cursor_event
      rw [h2, h3]
      exact fun hb => hk _ (fun p hp => (hkeep2 p hp).2 hb) (hpend hb)
  | SetCursor info =>
    simp only [Overlay.opStep, Option.map_eq_some'] at hstep
    obtain ⟨⟨b, o2⟩, hi, rfl⟩ := hstep
    cases b with
    | false =>
      rw [Overlay.SetCursor_false cfg env o o2 info hi]
      exact ⟨hact, hpend⟩
    | true =>
      obtain ⟨c, hl, ho2⟩ := Overlay.SetCursor_true cfg env o o2 info hi
      obtain ⟨_, haddr, _⟩ := Overlay._LoadCursor_some_some env o _ info c hl
      have hcur : o2._cursors = o._cursors := by rw [ho2]; simp
      have hactive : o2._active_cursor = o._active_cursor := by rw [ho2]; simp
      have hev : o2._cursor_event = some c := by rw [ho2]
      refine ⟨?_, ?_⟩
      · show o2.cursorKnown o2._active_cursor
        rw [hactive]; exact Overlay.cursorKnown_of_cursors o o2 _ hcur hact
      · show maskHas o2._in_frame_events _ = true → o2.cursorKnown o2._cursor_event
        rw [hev]
        exact fun _ => Overlay.cursorKnown_of_cursors o o2 _ hcur
          (Overlay.cursorKnown_addressed o info c haddr)
  | SetCursorIterated info =>
    simp only [Overlay.opStep, Option.map_eq_some'] at hstep
    obtain ⟨⟨b, info1, o2⟩, hi, rfl⟩ := hstep
    obtain ⟨hlen, hid, hv⟩ := hallowed
    cases b with
    | false =>
      rw [Overlay.SetCursorIterated_false cfg env o o2 info info1 hlen hid hv hi]
      exact ⟨hact, hpend⟩
    | true =>
      obtain ⟨q, c, _, haddr, _, ho2⟩ :=
        Overlay.SetCursorIterated_true cfg env o o2 info info1 hlen hid hv hi
      have hcur : o2._cursors = o._cursors := by rw [ho2]; simp
      have hactive : o2._active_cursor = o._active_cursor := by rw [ho2]; simp
      have hev : o2._cursor_event = some c := by rw [ho2]
      refine ⟨?_, ?_⟩
      · show o2.cursorKnown o2._active_cursor
        rw [hactive]; exact Overlay.cursorKnown_of_cursors o o2 _ hcur hact
      · show maskHas o2._in_frame_events _ = true → o2.cursorKnown o2._cursor_event
        rw [hev]
        exact fun _ => Overlay.cursorKnown_of_cursors o o2 _ hcur
          (Overlay.cursorKnown_addressed o _ c haddr)
  | SetCursorHidden =>
    simp only [Overlay.opStep, Option.some.injEq] at hstep
    subst hstep
    refine ⟨hact, ?_⟩
    intro hb
    exfalso
    have hm2 : (o.SetCursorHidden cfg)._in_frame_events =
        2 ^ cfg.hideCursorBit |||
          (o._in_frame_events &&& bitNot cfg.maskWidth (2 ^ cfg.setCursorBit)) := rfl
    rw [hm2, Config.IN_FRAME_EVENT_SET_CURSOR, maskHas_two_pow, testBit_hidden] at hb
    simp [hhs, hs] at hb
  | SetMessage message =>
    simp only [Overlay.opStep, Option.some.injEq] at hstep
    subst hstep
    refine ⟨hact, ?_⟩
    intro hb
    have hm2 : (o.SetMessage cfg message)._in_frame_events =
        o._in_frame_events ||| 2 ^ cfg.setMessageBit := rfl
    rw [hm2, Config.IN_FRAME_EVENT_SET_CURSOR, maskHas_two_pow,
      testBit_or_two_pow_of_ne _ _ _ hsm, ← maskHas_two_pow] at hb
    exact hpend hb
  | ProcessPreFrameEvents =>
    simp only [Overlay.opStep, Option.some.injEq] at hstep
    subst hstep
    obtain ⟨_, h2, h3, h4, h5, _⟩ := Overlay._ProcessPreFrameEvents_frame cfg env o
    refine ⟨?_, ?_⟩
    · show (o._ProcessPreFrameEvents cfg env).cursorKnown _
      rw [h4]; exact Overlay.cursorKnown_of_cursors o _ _ h5 hact
    · show maskHas (o._ProcessPreFrameEvents cfg env)._in_frame_events _ = true → _
      rw [h2, h3]
      exact fun hb => Overlay.cursorKnown_of_cursors o _ _ h5 (hpend hb)
  | ProcessInFrameEvents =>
    simp only [Overlay.opStep, Option.some.injEq] at hstep
    subst hstep
    have hcur := Overlay._ProcessInFrameEvents_cursors cfg env o
    refine ⟨?_, ?_⟩
    · show (o._ProcessInFrameEvents cfg env).cursorKnown _
      refine Overlay.cursorKnown_of_cursors o _ _ hcur ?_
      rw [Overlay._ProcessInFrameEvents_active_cursor]
      split
      · exact hact
      · split
        · next hset => exact hpend hset
        · split
          · exact Or.inl rfl
          · exact hact
    · show maskHas (o._ProcessInFrameEvents cfg env)._in_frame_events _ = true → _
      rw [Overlay._ProcessInFrameEvents_in_frame_events]
      intro hb
      simp [maskHas] at hb

/-- C18, as stated, fails: in an initialized overlay a cursor is installed
in slot 2, selected with `SetCursor` and made active by the in-frame drain;
`UninstallCursor(2)` then empties the slot and leaves the active cursor
pointing at the cursor that is no longer in the table. -/
theorem C18_uninstall_active_counterexample :
    overlay1.IsInitialized = true ∧ overlay1._active_cursor = none ∧
    overlay1._in_frame_events = 0 ∧
    ∃ o1, overlay1.opRun cfg0 envZero
        [.InstallCursor 2 (.ext 5) true, .SetCursor ⟨.CURSOR_TYPE_OVERLAY, 2, 0, 32⟩,
          .ProcessInFrameEvents, .UninstallCursor 2] = some o1 ∧
      o1._active_cursor = some (.ext 5) ∧ o1._cursors[2]? = some none ∧
      some (.ext 5) ∉ o1._cursors ∧ ¬ o1.cursorsKnown cfg0 := by
  refine ⟨rfl, rfl, rfl, _, rfl, rfl, by decide, by decide, by decide⟩

/-- C18 (amended): start from an overlay with no active cursor and an empty
in-frame mask, as it is after `Initialize`, and apply any sequence of
`InstallCursor`, `UninstallCursor`, `SetCursor`, `SetCursorIterated`,
`SetCursorHidden`, `SetMessage` and the two drains, each with its assertions
satisfied and its ids inside the table, in which `UninstallCursor` is never
applied to the slot of the active cursor, nor to the slot of the pending
cursor while the set-cursor bit is set.  In the state reached the active
cursor is none, the basic cursor or a cursor in the table, and so is the
pending cursor whenever the set-cursor bit is set. -/
theorem C18_cursors_in_use_known (cfg : Config) (hcfg : cfg.WellFormed) (env : Env)
    (ops : List Op) (o o1 : Overlay) (hact : o._active_cursor = none)
    (hmask : o._in_frame_events = 0)
    (hrun : o.opRunKeeping cfg env ops = some o1) : o1.cursorsKnown cfg := by
  have hstart : o.cursorsKnown cfg := by
    refine ⟨Or.inl hact, ?_⟩
    rw [hmask]
    intro hb
    simp [maskHas] at hb
  clear hact hmask
  induction ops generalizing o with
  | nil =>
    simp only [Overlay.opRunKeeping, Option.some.injEq] at hrun
    rw [← hrun]; exact hstart
  | cons op rest ih =>
    simp only [Overlay.opRunKeeping] at hrun
    split at hrun
    · next hok =>
      cases hstep : o.opStep cfg env op with
      | none => rw [hstep] at hrun; exact Option.noConfusion hrun
      | some o2 =>
        rw [hstep] at hrun
        exact ih o2 hrun
          (Overlay.opStep_cursorsKnown cfg hcfg env o o2 op hok.1 hok.2 hstart hstep)
    · exact Option.noConfusion hrun

theorem C18_cursors_in_use_known_witness :
    cfg0.WellFormed ∧ overlay1._active_cursor = none ∧ overlay1._in_frame_events = 0 ∧
    ∃ o1, overlay1.opRunKeeping cfg0 envZero
        [.InstallCursor 2 (.ext 5) true, .SetCursor ⟨.CURSOR_TYPE_OVERLAY, 2, 0, 32⟩,
          .ProcessInFrameEvents, .UninstallCursor 3] = some o1 ∧
      o1._active_cursor = some (.ext 5) ∧ o1.cursorsKnown cfg0 :=
  ⟨by decide, rfl, rfl, _, rfl, rfl,
    C18_cursors_in_use_known cfg0 (by decide) envZero
      [.InstallCursor 2 (.ext 5) true, .SetCursor ⟨.CURSOR_TYPE_OVERLAY, 2, 0, 32⟩,
        .ProcessInFrameEvents, .UninstallCursor 3] overlay1 _ rfl rfl rfl⟩


/-! ## A call between two statements of a drain -/

@[simp] theorem Overlay._OnFrameEventMessage_in_frame_events (env : Env) (o : Overlay)
    (m : List Char) : (o._OnFrameEventMessage env m)._in_frame_events = o._in_frame_events := by
  unfold Overlay._OnFrameEventMessage; split <;> rfl

@[simp] theorem Overlay.drainHideStep_snd (cfg : Config) (o : Overlay) :
    (o.drainHideStep cfg).2 = maskHas o._in_frame_events cfg.IN_FRAME_EVENT_HIDE_CURSOR := by
  unfold Overlay.drainHideStep
  cases h : maskHas o._in_frame_events cfg.IN_FRAME_EVENT_HIDE_CURSOR <;> simp

@[simp] theorem Overlay.drainHideStep_in_frame_events (cfg : Config) (o : Overlay) :
    (o.drainHideStep cfg).1._in_frame_events = o._in_frame_events := by
  unfold Overlay.drainHideStep
  cases h : maskHas o._in_frame_events cfg.IN_FRAME_EVENT_HIDE_CURSOR <;> simp

@[simp] theorem Overlay.drainSetStep_snd (cfg : Config) (o : Overlay) :
    (o.drainSetStep cfg).2 = maskHas o._in_frame_events cfg.IN_FRAME_EVENT_SET_CURSOR := by
  unfold Overlay.drainSetStep
  cases h : maskHas o._in_frame_events cfg.IN_FRAME_EVENT_SET_CURSOR <;> simp

@[simp] theorem Overlay.drainSetStep_in_frame_events (cfg : Config) (o : Overlay) :
    (o.drainSetStep cfg).1._in_frame_events = o._in_frame_events := by
  unfold Overlay.drainSetStep
  cases h : maskHas o._in_frame_events cfg.IN_FRAME_EVENT_SET_CURSOR <;> simp

@[simp] theorem Overlay.drainMessageStep_snd (cfg : Config) (env : Env) (o : Overlay) :
    (o.drainMessageStep cfg env).2 =
      maskHas o._in_frame_events cfg.IN_FRAME_EVENT_SET_MESSAGE := by
  unfold Overlay.drainMessageStep
  cases h : maskHas o._in_frame_events cfg.IN_FRAME_EVENT_SET_MESSAGE <;> simp

@[simp] theorem Overlay.drainMessageStep_in_frame_events (cfg : Config) (env : Env)
    (o : Overlay) : (o.drainMessageStep cfg env).1._in_frame_events = o._in_frame_events := by
  unfold Overlay.drainMessageStep
  cases h : maskHas o._in_frame_events cfg.IN_FRAME_EVENT_SET_MESSAGE <;> simp

@[simp] theorem Overlay.drainClearStep_in_frame_events (o : Overlay) :
    o.drainClearStep._in_frame_events = 0 := rfl

@[simp] theorem Overlay._OnFrameEventResize_pre_frame_events (env : Env) (o : Overlay)
    (size : Vector2l) : (o._OnFrameEventResize env size)._pre_frame_events =
      o._pre_frame_events := by
  simp [Overlay._OnFrameEventResize]

@[simp] theorem Overlay.drainResizeStep_snd (cfg : Config) (env : Env) (o : Overlay) :
    (o.drainResizeStep cfg env).2 =
      maskHas o._pre_frame_events cfg.PRE_FRAME_EVENT_RESIZE := by
  unfold Overlay.drainResizeStep
  cases h : maskHas o._pre_frame_events cfg.PRE_FRAME_EVENT_RESIZE <;> simp

@[simp] theorem Overlay.drainResizeStep_pre_frame_events (cfg : Config) (env : Env)
    (o : Overlay) : (o.drainResizeStep cfg env).1._pre_frame_events = o._pre_frame_events := by
  unfold Overlay.drainResizeStep
  cases h : maskHas o._pre_frame_events cfg.PRE_FRAME_EVENT_RESIZE <;> simp

@[simp] theorem Overlay.drainClearPreStep_pre_frame_events (o : Overlay) :
    o.drainClearPreStep._pre_frame_events = 0 := rfl

end Yolomouse
